import Mathlib

set_option maxHeartbeats 1000000

/-
Verification of src/convert/tdfdr.py (GALAHProject/fits-standard).

The converter turns one 2dfdr-reduced multi-fibre exposure into a list of
per-object HDU lists.  The embedding below models FITS headers as ordered
card lists, floating-point numbers as exact rationals (no rounding), and the
two external collaborators (the motions module and numpy square root) as
oracle functions.  Error names follow the taxonomy used by the documentation:
the AssertionError raised by verify_hermes_origin is originMismatch, the dict
KeyError in get_ccd_number is unknownChannel, the ValueError of list.index in
read_2dfdr_extensions is missingExtension, header and table KeyErrors are
missingKey, Python TypeErrors are typeError and IndexErrors are indexError.
-/

namespace Galah

/-- Header card values used by the converter: strings or numbers.
Floating-point values are modelled as exact rationals. -/
inductive Value where
  | str (s : String)
  | num (x : ℚ)
deriving DecidableEq

/-- One FITS header card: keyword, value and comment. -/
structure Card where
  key : String
  value : Value
  comment : String
deriving DecidableEq

/-- A FITS header is an ordered list of cards. -/
abbrev Header := List Card

/-- Failure modes of the pipeline, one per way the Python source can raise. -/
inductive PipelineError where
  | originMismatch
  | unknownChannel
  | missingExtension (name : String)
  | missingKey (key : String)
  | typeError
  | indexError
  | motionFailure
deriving DecidableEq

/-- astropy header value lookup: the value of the first card with the keyword. -/
def Header.get? (h : Header) (k : String) : Option Value :=
  (h.find? (fun c => c.key == k)).map Card.value

/-- astropy comment lookup: the comment of the first card with the keyword. -/
def Header.getComment? (h : Header) (k : String) : Option String :=
  (h.find? (fun c => c.key == k)).map Card.comment

/-- astropy comment lookup, empty string when absent (matching the default
comment of a card that never had one set). -/
def Header.getCommentD (h : Header) (k : String) : String :=
  (h.getComment? k).getD ""

/-- astropy assignment for a normal keyword: replace the value of the first
existing card, keeping its comment, or append a new card with an empty
comment. -/
def Header.setVal : Header → String → Value → Header
  | [], k, v => [⟨k, v, ""⟩]
  | c :: rest, k, v =>
      if c.key = k then ⟨k, v, c.comment⟩ :: rest else c :: Header.setVal rest k v

/-- astropy assignment: HISTORY is a commentary keyword for which assignment
always appends a fresh card. -/
def Header.set (h : Header) (k : String) (v : Value) : Header :=
  if k = "HISTORY" then h ++ [⟨k, v, ""⟩] else h.setVal k v

/-- astropy comment assignment: update the comment of the first card with the
keyword.  Every call site in the source writes a comment for a keyword it has
just set, so the absent case (a KeyError in astropy) is unreachable here and
is modelled as a no-op. -/
def Header.setComment : Header → String → String → Header
  | [], _, _ => []
  | c :: rest, k, s =>
      if c.key = k then ⟨c.key, c.value, s⟩ :: rest else c :: Header.setComment rest k s

/-- Python del of a header keyword: removes the keyword, KeyError when it is
absent. -/
def Header.del (h : Header) (k : String) : Except PipelineError Header :=
  if h.any (fun c => c.key == k) then .ok (h.filter (fun c => c.key != k))
  else .error (.missingKey k)

/-- Sequential deletion of several keywords, as in the template-building loop. -/
def Header.delKeys (h : Header) (ks : List String) : Except PipelineError Header :=
  ks.foldlM Header.del h

/-- Python augmented assignment on a header value: read, multiply by a float,
write back.  A missing keyword is a KeyError and multiplying a string by a
float is a TypeError. -/
def Header.mulVal (h : Header) (k : String) (f : ℚ) : Except PipelineError Header :=
  match h.get? k with
  | some (.num x) => .ok (h.set k (.num (x * f)))
  | some (.str _) => .error .typeError
  | none => .error (.missingKey k)

/-- Keywords used by astropy checksumming. -/
def Header.stripChecksumCards (h : Header) : Header :=
  h.filter (fun c => c.key != "CHECKSUM" && c.key != "DATASUM")

/-- An output HDU: header, optional one-dimensional data payload, and the
content snapshot recorded when the HDU was checksummed (none before that). -/
structure HDU where
  header : Header
  data : Option (List ℚ)
  checksumAt : Option (Header × Option (List ℚ))
deriving DecidableEq

abbrev HDUList := List HDU

/-- astropy add_checksum: writes the DATASUM and CHECKSUM cards computed over
the final content of the HDU.  The checksum payload is modelled by recording
the sealed content (the header without checksum cards, plus the data). -/
def HDU.add_checksum (hdu : HDU) : HDU :=
  ⟨(hdu.header.set "DATASUM" (.str "0")).set "CHECKSUM" (.str "0"),
   hdu.data, some (hdu.header.stripChecksumCards, hdu.data)⟩

/-- A checksummed HDU is intact when its sealed snapshot still matches its
current content, i.e. nothing changed after add_checksum ran. -/
def HDU.checksumValid (hdu : HDU) : Prop :=
  hdu.checksumAt = some (hdu.header.stripChecksumCards, hdu.data)

/-- One row of the FIBRES binary table, with the columns the converter reads. -/
structure FibreRow where
  TYPE : String
  NAME : String
  RA : ℚ
  DEC : ℚ
  PMRA : ℚ
  PMDEC : ℚ
  MAGNITUDE : ℚ
  COMMENT : String
deriving DecidableEq

/-- Column access on a fibre-table row; an unknown column name is a KeyError. -/
def FibreRow.get (r : FibreRow) (k : String) : Except PipelineError Value :=
  if k = "TYPE" then .ok (.str r.TYPE)
  else if k = "NAME" then .ok (.str r.NAME)
  else if k = "RA" then .ok (.num r.RA)
  else if k = "DEC" then .ok (.num r.DEC)
  else if k = "PMRA" then .ok (.num r.PMRA)
  else if k = "PMDEC" then .ok (.num r.PMDEC)
  else if k = "MAGNITUDE" then .ok (.num r.MAGNITUDE)
  else if k = "COMMENT" then .ok (.str r.COMMENT)
  else .error (.missingKey k)

/-- The data payload of one input HDU: a two-dimensional image array, a fibre
table, or nothing. -/
inductive HDUData where
  | image (rows : List (List ℚ))
  | table (rows : List FibreRow)
  | empty
deriving DecidableEq

/-- One HDU of the 2dfdr-reduced input file. -/
structure InputHDU where
  header : Header
  data : HDUData
deriving DecidableEq

abbrev Image := List InputHDU

/-- External collaborators of the converter: the motions module, which maps a
header to barycentric and heliocentric velocities in km/s, and the numpy
floating square root applied elementwise to the variance row.  Both live
outside this repository and are modelled as oracles. -/
structure Externals where
  motionFromHeader : Header → Except PipelineError (ℚ × ℚ)
  sqrt : ℚ → ℚ

/-- Module constant WG6_VER. -/
def WG6_VER : ℚ := 6.4

/-- Modelled from the spec: the source reads this from the environment with
git rev-parse; the design notes direct it to be treated as a configuration
constant injected once, so it is a fixed string here.  No claim depends on
its value. -/
def WG6_GIT_HASH : String := "abc1234"

/-- The numpy double constant np.pi, an exact rational in this model. -/
def np_pi : ℚ := 3.141592653589793

/-- The factor 180/np.pi applied to RA and DEC. -/
def deg_per_rad : ℚ := 180 / np_pi

/-- astropy speed of light, expressed in km/s, the unit system in which the
motion-service velocities are modelled; the source divides two unit-carrying
quantities, which is the same dimensionless ratio. -/
def speed_of_light : ℚ := 299792.458

/-- Python indexing image[i] on the HDU list. -/
def getHDU (image : Image) (i : ℕ) : Except PipelineError InputHDU :=
  match image.get? i with
  | some hdu => .ok hdu
  | none => .error .indexError

/-- Slicing row idx of the 2-D data array of HDU i. -/
def getImageRow (image : Image) (i idx : ℕ) : Except PipelineError (List ℚ) := do
  let hdu ← getHDU image i
  match hdu.data with
  | .image rows =>
      match rows.get? idx with
      | some r => pure r
      | none => Except.error .indexError
  | _ => Except.error .typeError

/-- Reading the fibre table of HDU i. -/
def getTable (image : Image) (i : ℕ) : Except PipelineError (List FibreRow) := do
  let hdu ← getHDU image i
  match hdu.data with
  | .table rows => pure rows
  | _ => Except.error .typeError

/-- Reading row idx of the fibre table of HDU i. -/
def getTableRow (image : Image) (i idx : ℕ) : Except PipelineError FibreRow := do
  let rows ← getTable image i
  match rows.get? idx with
  | some r => pure r
  | none => Except.error .indexError

/-- The extension indices located by read_2dfdr_extensions. -/
structure ExtIndices where
  data : ℕ
  variance : ℕ
  fibres : ℕ
deriving DecidableEq

/-- Python str.strip: drop whitespace from both ends. -/
def pyStrip (s : String) : String :=
  String.mk (((s.data.dropWhile Char.isWhitespace).reverse.dropWhile
    Char.isWhitespace).reverse)

/-- hdu.header.get("EXTNAME", "") followed by str.strip; stripping a
non-string value is a TypeError. -/
def extnameOf (hdu : InputHDU) : Except PipelineError String :=
  match hdu.header.get? "EXTNAME" with
  | some (.str s) => .ok (pyStrip s)
  | some (.num _) => .error .typeError
  | none => .ok ""

/-- read_2dfdr_extensions: the data extension is index 0; VARIANCE and FIBRES
are located by the first matching stripped EXTNAME, a ValueError
(missingExtension) when absent. -/
def read_2dfdr_extensions (image : Image) : Except PipelineError ExtIndices := do
  let extnames ← image.mapM extnameOf
  let variance ← match extnames.findIdx? (fun s => s == "VARIANCE") with
    | some i => pure i
    | none => Except.error (.missingExtension "VARIANCE")
  let fibres ← match extnames.findIdx? (fun s => s == "FIBRES") with
    | some i => pure i
    | none => Except.error (.missingExtension "FIBRES")
  pure ⟨0, variance, fibres⟩

/-- Reading a string-valued header keyword; a non-string value would fail the
subsequent str.strip call with a TypeError. -/
def getStrVal (h : Header) (k : String) : Except PipelineError String :=
  match h.get? k with
  | some (.str s) => .ok s
  | some (.num _) => .error .typeError
  | none => .error (.missingKey k)

/-- verify_hermes_origin: asserts ORIGIN strips to AAO and INSTRUME strips to
HERMES-2dF; a failed assert is the originMismatch error. -/
def verify_hermes_origin (image : Image) : Except PipelineError Unit := do
  let hdu0 ← getHDU image 0
  let origin ← getStrVal hdu0.header "ORIGIN"
  if pyStrip origin = "AAO" then pure () else Except.error PipelineError.originMismatch
  let instrume ← getStrVal hdu0.header "INSTRUME"
  if pyStrip instrume = "HERMES-2dF" then pure ()
  else Except.error PipelineError.originMismatch

/-- The fixed channel-name dictionary of get_ccd_number. -/
def ccdNameMap (s : String) : Option ℕ :=
  if s = "BLUE" then some 1
  else if s = "GREEN" then some 2
  else if s = "RED" then some 3
  else if s = "IR" then some 4
  else none

/-- The channel token, comment.split(" ")[0]: the first space-separated word
of the SPLYTEMP comment (empty when the comment starts with a space or is
empty). -/
def splyToken (com : String) : String :=
  String.mk (com.data.takeWhile (fun c => c != ' '))

/-- get_ccd_number: reads the SPLYTEMP comment of the primary header, takes
the first word, and maps it through the fixed dictionary; a token outside the
dictionary is a KeyError (unknownChannel). -/
def get_ccd_number (image : Image) : Except PipelineError (ℕ × String) := do
  let hdu0 ← getHDU image 0
  let com ← match hdu0.header.getComment? "SPLYTEMP" with
    | some c => pure c
    | none => Except.error (.missingKey "SPLYTEMP")
  let ccd_name := splyToken com
  match ccdNameMap ccd_name with
  | some n => pure (n, ccd_name)
  | none => Except.error .unknownChannel

/-- The keywords list of from_2dfdr: a mix of bare strings and
source-to-target pairs, exactly as in the source. -/
inductive Keyword where
  | single (k : String)
  | pair (src : String) (dst : String)
deriving DecidableEq

def keywords : List Keyword :=
  [.single "NAME", .single "RA", .single "DEC", .single "PMRA", .single "PMDEC",
   .pair "MAGNITUDE" "MAG", .pair "COMMENT" "DESCR"]

/-- Python membership s in keywords: list membership by equality; a string
never compares equal to a tuple, so only the single entries can match. -/
def kwContains (ks : List Keyword) (s : String) : Bool :=
  ks.any (fun kw => match kw with | .single k => k == s | .pair _ _ => false)

def keyword_comments : List (String × String) :=
  [("NAME", "Input source name"), ("DESCR", "Input source comment"),
   ("MAG", "Input source magnitude"), ("RA", "Right Ascension (degrees)"),
   ("DEC", "Declination (degrees)"), ("PMRA", "Proper motion in RA (mas/yr)"),
   ("PMDEC", "Proper motion in DEC (mas/yr)"), ("FIBRE", "Fibre number")]

/-- One iteration of the keywords loop: a bare string copies the same-named
column, a pair copies from its first name into its second. -/
def applyKeyword (row : FibreRow) (h : Header) (kw : Keyword) :
    Except PipelineError Header :=
  match kw with
  | .single k => do
      let v ← row.get k
      pure (h.set k v)
  | .pair src dst => do
      let v ← row.get src
      pure (h.set dst v)

/-- Lines 176 to 192 of the source: set FIBRE, copy the catalog fields, apply
the radian-to-degree conversion under the literal membership guard, then set
the fixed comments. -/
def enrichHeader (template : Header) (program_index : ℕ) (row : FibreRow) :
    Except PipelineError Header := do
  let h0 := template.set "FIBRE" (.num ((program_index : ℚ) + 1))
  let h1 ← keywords.foldlM (applyKeyword row) h0
  let h2 ←
    if kwContains keywords "RA" && kwContains keywords "DEC" then do
      let hra ← h1.mulVal "RA" deg_per_rad
      hra.mulVal "DEC" deg_per_rad
    else pure h1
  pure (keyword_comments.foldl (fun h p => h.setComment p.1 p.2) h2)

def wavelengthKeys : List String := ["CRVAL1", "CDELT1", "CRPIX1", "CTYPE1", "CUNIT1"]

/-- The header keywords written by the per-object enrichment loop. -/
def enrichTouchedKeys : List String :=
  ["FIBRE", "NAME", "RA", "DEC", "PMRA", "PMDEC", "MAG", "DESCR"]

/-- Keywords that belong to the flux header only: velocities, provenance and
the catalog fields. -/
def fluxOnlyKeys : List String :=
  ["V_BARY", "V_HELIO", "HISTORY", "FIBRE", "NAME", "RA", "DEC", "PMRA",
   "PMDEC", "MAG", "DESCR"]

/-- The exact keyword list of the finished input_sigma header, in order. -/
def sigmaKeyList : List String :=
  ["CRVAL1", "CDELT1", "CRPIX1", "CTYPE1", "CUNIT1", "EXTNAME", "DATASUM",
   "CHECKSUM"]

/-- EXTNAME values of a full five-extension product, in order. -/
def fullExtnames : List (Option Value) :=
  [some (.str "input_spectrum"), some (.str "input_sigma"),
   some (.str "normalised_spectrum"), some (.str "normalised_sigma"),
   some (.str "CCF")]

/-- EXTNAME values of a two-extension product, in order. -/
def basicExtnames : List (Option Value) :=
  [some (.str "input_spectrum"), some (.str "input_sigma")]

/-- The five-keyword copy loop: values and comments of the wavelength axis are
copied from the source header; a missing keyword is a KeyError. -/
def copyWavelengthKeys (src : Header) (dst : Header) : Except PipelineError Header :=
  wavelengthKeys.foldlM (fun h k =>
    match src.get? k with
    | some v => .ok ((h.set k v).setComment k (src.getCommentD k))
    | none => .error (.missingKey k)) dst

/-- Python indexing on an output HDU list. -/
def getOutHDU (hl : HDUList) (i : ℕ) : Except PipelineError HDU :=
  match hl.get? i with
  | some h => .ok h
  | none => .error .indexError

/-- dummy_normalisation_hdus: two empty placeholder HDUs that inherit the
wavelength-axis cards of hdulist[0] when a list is given, named and
checksummed. -/
def dummy_normalisation_hdus (hdulist : Option HDUList) :
    Except PipelineError HDUList := do
  let h1 ←
    match hdulist with
    | some hl => do
        let hdu0 ← getOutHDU hl 0
        copyWavelengthKeys hdu0.header []
    | none => pure ([] : Header)
  let hdu_normed_flux :=
    HDU.add_checksum ⟨(h1.set "EXTNAME" (.str "normalised_spectrum")).setComment
      "EXTNAME" "Normalised spectrum flux", none, none⟩
  let h2 ←
    match hdulist with
    | some hl => do
        let hdu0 ← getOutHDU hl 0
        copyWavelengthKeys hdu0.header []
    | none => pure ([] : Header)
  let hdu_normed_sigma :=
    HDU.add_checksum ⟨(h2.set "EXTNAME" (.str "normalised_sigma")).setComment
      "EXTNAME" "Normalised flux sigma", none, none⟩
  pure [hdu_normed_flux, hdu_normed_sigma]

def ccf_default_headers : List (String × String) :=
  [("VRAD", "Radial velocity (km/s)"),
   ("U_VRAD", "Uncertainty on radial velocity (km/s)"),
   ("TEFF", "Effective temperature"), ("LOGG", "Surface gravity"),
   ("FE_H", "Metallicity ([Fe/H])"), ("ALPHA_FE", "Alpha-enhancement ([alpha/Fe])")]

/-- dummy_ccf_hdu: an empty placeholder with the named NaN-valued result
fields; its hdulist parameter is never read. -/
def dummy_ccf_hdu (hdulist : Option HDUList) : HDU :=
  let h0 := (Header.set [] "EXTNAME" (.str "CCF")).setComment "EXTNAME"
    "CCF from best-fitting template"
  let h1 := ccf_default_headers.foldl
    (fun h p => (h.set p.1 (.str "NaN")).setComment p.1 p.2) h0
  HDU.add_checksum ⟨h1, none, none⟩

/-- The flux HDU header as first assembled: the enriched header with EXTNAME
input_spectrum.  astropy HDU constructors keep a reference to the header they
are given, so later code (including the motions call) sees this object. -/
def mkFluxHeader0 (eh : Header) : Header :=
  (eh.set "EXTNAME" (.str "input_spectrum")).setComment "EXTNAME" "Spectrum flux"

/-- The sigma HDU header after the wavelength-axis copy and EXTNAME. -/
def mkSigmaHeader0 (sh0 : Header) : Header :=
  (sh0.set "EXTNAME" (.str "input_sigma")).setComment "EXTNAME" "Flux sigma"

/-- Lines 212 to 216: store V_BARY and V_HELIO with comments and append the
HISTORY provenance note on the flux header. -/
def mkFh1 (flux_header : Header) (v_bary v_helio : ℚ) : Header :=
  ((((flux_header.set "V_BARY" (.num v_bary)).set "V_HELIO"
    (.num v_helio)).setComment "V_BARY" "Barycentric motion (km/s)").setComment
    "V_HELIO" "Heliocentric motion (km/s)").set "HISTORY"
    (.str "Corrected for barycentric motion (V_BARY)")

/-- The header state after the FIBRE assignment and the keywords loop, in
closed form; the loop always succeeds on a full fibre row, and lemma
enrichHeader_eq proves enrichHeader returns the rescaled and commented form
of this header. -/
def enrichStage1 (t : Header) (i : ℕ) (row : FibreRow) : Header :=
  (((((((t.set "FIBRE" (.num ((i : ℚ) + 1))).set "NAME"
    (.str row.NAME)).set "RA" (.num row.RA)).set "DEC"
    (.num row.DEC)).set "PMRA" (.num row.PMRA)).set "PMDEC"
    (.num row.PMDEC)).set "MAG" (.num row.MAGNITUDE)).set "DESCR"
    (.str row.COMMENT)

/-- Closed form of the full enrichment step: catalog fields written, RA and
DEC rescaled to degrees, fixed comments attached. -/
def enrichResult (t : Header) (i : ℕ) (row : FibreRow) : Header :=
  keyword_comments.foldl (fun hh p => hh.setComment p.1 p.2)
    (((enrichStage1 t i row).set "RA" (.num (row.RA * deg_per_rad))).set "DEC"
      (.num (row.DEC * deg_per_rad)))

/-- Closed form of the finished flux HDU of one object: the enriched header
with EXTNAME, velocities, provenance, the Doppler-rescaled CRVAL1 and CDELT1
(whose pre-correction values were x1 and y1), checksummed over the flux row;
lemma processObject_ok derives it. -/
def fluxFinalHdu (eh : Header) (vb vh x1 y1 : ℚ) (flux : List ℚ) : HDU :=
  HDU.add_checksum ⟨((mkFh1 (mkFluxHeader0 eh) vb vh).set "CRVAL1"
    (.num (x1 * (1 + vb / speed_of_light)))).set "CDELT1"
    (.num (y1 * (1 + vb / speed_of_light))), some flux, none⟩

/-- Closed form of the finished sigma HDU of one object. -/
def sigmaFinalHdu (sh0 : Header) (vb x2 y2 : ℚ) (sigdata : List ℚ) : HDU :=
  HDU.add_checksum ⟨((mkSigmaHeader0 sh0).set "CRVAL1"
    (.num (x2 * (1 + vb / speed_of_light)))).set "CDELT1"
    (.num (y2 * (1 + vb / speed_of_light))), some sigdata, none⟩

/-- Lines 223 to 231: checksum the two real HDUs, then optionally extend with
the placeholder extensions. -/
def assembleTail (dummy_hdus : Bool) (hdulist : HDUList) :
    Except PipelineError HDUList :=
  if dummy_hdus then do
    let normed ← dummy_normalisation_hdus (some hdulist)
    pure (hdulist ++ normed ++ [dummy_ccf_hdu (some hdulist)])
  else pure hdulist

/-- The body of the per-object loop of from_2dfdr (lines 170 to 232). -/
def processObject (e : Externals) (image : Image) (exts : ExtIndices)
    (template : Header) (dummy_hdus : Bool) (program_index : ℕ) :
    Except PipelineError HDUList := do
  let flux ← getImageRow image exts.data program_index
  let variance ← getImageRow image exts.variance program_index
  let fibre_header ← getTableRow image exts.fibres program_index
  let header ← enrichHeader template program_index fibre_header
  let flux_header := mkFluxHeader0 header
  let sh0 ← copyWavelengthKeys flux_header []
  let sigma_header := mkSigmaHeader0 sh0
  let mot ← e.motionFromHeader flux_header
  let fh1 := mkFh1 flux_header mot.1 mot.2
  let factor := 1 + mot.1 / speed_of_light
  let fh2 ← fh1.mulVal "CRVAL1" factor
  let fh3 ← fh2.mulVal "CDELT1" factor
  let sh2 ← sigma_header.mulVal "CRVAL1" factor
  let sh3 ← sh2.mulVal "CDELT1" factor
  let hdu_flux := HDU.add_checksum ⟨fh3, some flux, none⟩
  let hdu_sigma := HDU.add_checksum ⟨sh3, some (variance.map e.sqrt), none⟩
  assembleTail dummy_hdus [hdu_flux, hdu_sigma]

/-- np.where(TYPE == "P")[0]: the ascending indices of program fibres,
starting the count at n. -/
def programIndicesFrom : ℕ → List FibreRow → List ℕ
  | _, [] => []
  | n, r :: rest =>
      if r.TYPE == "P" then n :: programIndicesFrom (n + 1) rest
      else programIndicesFrom (n + 1) rest

def programIndices (rows : List FibreRow) : List ℕ :=
  programIndicesFrom 0 rows

/-- The for-loop of from_2dfdr: one HDU list per program index, in order; an
exception at any object aborts the whole run. -/
def extractLoop (e : Externals) (image : Image) (exts : ExtIndices)
    (template : Header) (dummy_hdus : Bool) :
    List ℕ → Except PipelineError (List HDUList)
  | [] => .ok []
  | i :: rest => do
      let p ← processObject e image exts template dummy_hdus i
      let ps ← extractLoop e image exts template dummy_hdus rest
      pure (p :: ps)

def axis2Keys : List String := ["CDELT2", "CRPIX2", "CRVAL2", "CTYPE2", "CUNIT2"]

/-- Lines 160 to 166: inject the CCD number and the processing version and
hash into the header template. -/
def finishTemplate (t : Header) (cn : ℕ × String) : Header :=
  (((((t.set "CCD" (.num (cn.1 : ℚ))).setComment "CCD"
    (cn.2 ++ " camera")).set "WG6_VER" (.num WG6_VER)).set "WG6_HASH"
    (.str WG6_GIT_HASH)).setComment "WG6_VER"
    "WG6 standardisation code version").setComment "WG6_HASH"
    "WG6 standardisation commit hash"

/-- from_2dfdr without the final close: locate extensions, verify the origin,
build the shared template, then run the per-object loop. -/
def from_2dfdr_body (e : Externals) (image : Image) (dummy_hdus : Bool) :
    Except PipelineError (List HDUList) := do
  let exts ← read_2dfdr_extensions image
  verify_hermes_origin image
  let hdu0 ← getHDU image exts.data
  let t1 ← hdu0.header.delKeys axis2Keys
  let cn ← get_ccd_number image
  let template := finishTemplate t1 cn
  let rows ← getTable image exts.fibres
  extractLoop e image exts template dummy_hdus (programIndices rows)

/-- from_2dfdr.  The second component records whether image.close() ran
before control returned: the source closes the image only after the loop
finishes and has no try/finally, so a propagating exception leaves the file
open. -/
def from_2dfdr (e : Externals) (image : Image) (dummy_hdus : Bool) :
    Except PipelineError (List HDUList) × Bool :=
  match from_2dfdr_body e image dummy_hdus with
  | .ok sources => (.ok sources, true)
  | .error err => (.error err, false)

/-- A well-formed sample primary header for concrete runs. -/
def sampleHeader : Header :=
  [⟨"ORIGIN", .str "AAO", "origin"⟩,
   ⟨"INSTRUME", .str "HERMES-2dF", "instrument"⟩,
   ⟨"SPLYTEMP", .num 10, "GREEN camera temperature"⟩,
   ⟨"CRVAL1", .num 4714, "Reference wavelength"⟩,
   ⟨"CDELT1", .num (1 / 20), "Wavelength step"⟩,
   ⟨"CRPIX1", .num 1, "Reference pixel"⟩,
   ⟨"CTYPE1", .str "WAVE", "Axis type"⟩,
   ⟨"CUNIT1", .str "Angstrom", "Axis unit"⟩,
   ⟨"CDELT2", .num 1, ""⟩, ⟨"CRPIX2", .num 1, ""⟩, ⟨"CRVAL2", .num 1, ""⟩,
   ⟨"CTYPE2", .str "FIBRE", ""⟩, ⟨"CUNIT2", .str "", ""⟩]

def sampleRow0 : FibreRow :=
  ⟨"P", "Star1", np_pi, -(1 / 2), 3, 4, 11, "bright"⟩

def sampleRow1 : FibreRow :=
  ⟨"S", "Sky1", 1, 1, 0, 0, 0, "sky"⟩

def sampleRow2 : FibreRow :=
  ⟨"P", "Star2", 2, 1, 0, 0, 12, "faint"⟩

def sampleHDU0 : InputHDU :=
  ⟨sampleHeader, .image [[1, 2], [3, 4], [5, 6]]⟩

/-- A well-formed sample exposure with two program fibres (indices 0 and 2). -/
def sampleImage : Image :=
  [sampleHDU0,
   ⟨[⟨"EXTNAME", .str "VARIANCE", ""⟩], .image [[4, 4], [1, 1], [9, 16]]⟩,
   ⟨[⟨"EXTNAME", .str "FIBRES", ""⟩], .table [sampleRow0, sampleRow1, sampleRow2]⟩]

/-- Sample oracles: the motion service reports half the speed of light as the
barycentric velocity, so the Doppler factor is exactly 3/2. -/
def sampleExternals : Externals :=
  ⟨fun _ => .ok (149896.229, 7), fun q => q⟩

/-- Oracles whose motion service always fails. -/
def failingExternals : Externals :=
  ⟨fun _ => .error .motionFailure, fun q => q⟩

def sampleRun : Except PipelineError (List HDUList) :=
  (from_2dfdr sampleExternals sampleImage true).1

def sampleProducts : List HDUList :=
  sampleRun.toOption.getD []

def sampleProduct0 : HDUList :=
  sampleProducts.getD 0 []

def sampleFlux0 : HDU :=
  sampleProduct0.getD 0 ⟨[], none, none⟩

def sampleSigma0 : HDU :=
  sampleProduct0.getD 1 ⟨[], none, none⟩

/-- An input whose ORIGIN is wrong and which also lacks the VARIANCE
extension. -/
def badImage : Image :=
  [⟨[⟨"ORIGIN", .str "ESO", ""⟩, ⟨"INSTRUME", .str "HERMES-2dF", ""⟩], .image [[1]]⟩]

/-- A structurally complete input whose INSTRUME is not HERMES-2dF. -/
def wrongInstrumentImage : Image :=
  [⟨[⟨"ORIGIN", .str "AAO", ""⟩, ⟨"INSTRUME", .str "UCLES", ""⟩], .image [[1]]⟩,
   ⟨[⟨"EXTNAME", .str "VARIANCE", ""⟩], .image [[1]]⟩,
   ⟨[⟨"EXTNAME", .str "FIBRES", ""⟩], .table [sampleRow0]⟩]

/-! ### Basic lemmas about the Except monad and header operations -/

@[simp] theorem bind_ok_eval {α β : Type} (a : α) (f : α → Except PipelineError β) :
    (Except.ok a >>= f) = f a := rfl

@[simp] theorem bind_error_eval {α β : Type} (err : PipelineError)
    (f : α → Except PipelineError β) :
    ((Except.error err : Except PipelineError α) >>= f) = Except.error err := rfl

@[simp] theorem pure_eval {α : Type} (a : α) :
    (pure a : Except PipelineError α) = Except.ok a := rfl

theorem find?_key_cons (c : Card) (rest : List Card) (k : String) :
    (c :: rest).find? (fun x => x.key == k) =
      if c.key = k then some c else rest.find? (fun x => x.key == k) := by
  by_cases hc : c.key = k
  · simp [List.find?, hc]
  · have hb : (c.key == k) = false := beq_eq_false_iff_ne.mpr hc
    simp [List.find?, hb, hc]

theorem get?_cons (c : Card) (rest : List Card) (k : String) :
    Header.get? (c :: rest) k =
      if c.key = k then some c.value else Header.get? rest k := by
  by_cases hc : c.key = k <;> simp [Header.get?, find?_key_cons, hc]

theorem getComment?_cons (c : Card) (rest : List Card) (k : String) :
    Header.getComment? (c :: rest) k =
      if c.key = k then some c.comment else Header.getComment? rest k := by
  by_cases hc : c.key = k <;> simp [Header.getComment?, find?_key_cons, hc]

theorem get?_setVal_self (h : Header) (k : String) (v : Value) :
    (Header.setVal h k v).get? k = some v := by
  induction h with
  | nil => simp [Header.setVal, get?_cons, Header.get?]
  | cons c rest ih =>
      by_cases hc : c.key = k
      · simp [Header.setVal, hc, get?_cons]
      · simp [Header.setVal, hc, get?_cons, ih]

theorem get?_setVal_ne (h : Header) (k : String) (v : Value) (k2 : String)
    (hne : k2 ≠ k) : (Header.setVal h k v).get? k2 = h.get? k2 := by
  induction h with
  | nil => simp [Header.setVal, get?_cons, Header.get?, Ne.symm hne]
  | cons c rest ih =>
      by_cases hc : c.key = k
      · subst hc
        simp [Header.setVal, get?_cons, Ne.symm hne]
      · simp [Header.setVal, hc, get?_cons, ih]

theorem getComment?_setVal_ne (h : Header) (k : String) (v : Value) (k2 : String)
    (hne : k2 ≠ k) : (Header.setVal h k v).getComment? k2 = h.getComment? k2 := by
  induction h with
  | nil => simp [Header.setVal, getComment?_cons, Header.getComment?, Ne.symm hne]
  | cons c rest ih =>
      by_cases hc : c.key = k
      · subst hc
        simp [Header.setVal, getComment?_cons, Ne.symm hne]
      · simp [Header.setVal, hc, getComment?_cons, ih]

theorem getComment?_setVal_present (h : Header) (k : String) (v v0 : Value)
    (hp : h.get? k = some v0) :
    (Header.setVal h k v).getComment? k = h.getComment? k := by
  induction h with
  | nil => simp [Header.get?] at hp
  | cons c rest ih =>
      by_cases hc : c.key = k
      · simp [Header.setVal, hc, getComment?_cons]
      · rw [get?_cons] at hp
        simp only [hc, if_false] at hp
        simp [Header.setVal, hc, getComment?_cons, ih hp]

theorem get?_append_ne (h : Header) (c : Card) (k2 : String) (hne : k2 ≠ c.key) :
    Header.get? (h ++ [c]) k2 = h.get? k2 := by
  induction h with
  | nil =>
      have hb : (c.key == k2) = false := beq_eq_false_iff_ne.mpr (Ne.symm hne)
      simp [Header.get?, List.find?, hb]
  | cons d rest ih =>
      by_cases hd : d.key = k2
      · simp [get?_cons, hd]
      · simp only [List.cons_append]
        rw [get?_cons, get?_cons]
        simp [hd, ih]

theorem getComment?_append_ne (h : Header) (c : Card) (k2 : String)
    (hne : k2 ≠ c.key) : Header.getComment? (h ++ [c]) k2 = h.getComment? k2 := by
  induction h with
  | nil =>
      have hb : (c.key == k2) = false := beq_eq_false_iff_ne.mpr (Ne.symm hne)
      simp [Header.getComment?, List.find?, hb]
  | cons d rest ih =>
      by_cases hd : d.key = k2
      · simp [getComment?_cons, hd]
      · simp only [List.cons_append]
        rw [getComment?_cons, getComment?_cons]
        simp [hd, ih]

theorem get?_set_self (h : Header) (k : String) (v : Value) (hk : k ≠ "HISTORY") :
    (h.set k v).get? k = some v := by
  simp [Header.set, hk, get?_setVal_self]

theorem get?_set_ne (h : Header) (k : String) (v : Value) (k2 : String)
    (hne : k2 ≠ k) : (h.set k v).get? k2 = h.get? k2 := by
  by_cases hh : k = "HISTORY"
  · subst hh
    simp only [Header.set, if_pos rfl]
    exact get?_append_ne h _ k2 hne
  · simp [Header.set, hh, get?_setVal_ne h k v k2 hne]

theorem getComment?_set_ne (h : Header) (k : String) (v : Value) (k2 : String)
    (hne : k2 ≠ k) : (h.set k v).getComment? k2 = h.getComment? k2 := by
  by_cases hh : k = "HISTORY"
  · subst hh
    simp only [Header.set, if_pos rfl]
    exact getComment?_append_ne h _ k2 hne
  · simp [Header.set, hh, getComment?_setVal_ne h k v k2 hne]

theorem getComment?_set_present (h : Header) (k : String) (v v0 : Value)
    (hp : h.get? k = some v0) (hk : k ≠ "HISTORY") :
    (h.set k v).getComment? k = h.getComment? k := by
  simp [Header.set, hk, getComment?_setVal_present h k v v0 hp]

theorem get?_setComment (h : Header) (kc s : String) (k2 : String) :
    (Header.setComment h kc s).get? k2 = h.get? k2 := by
  induction h with
  | nil => simp [Header.setComment]
  | cons c rest ih =>
      by_cases hc : c.key = kc
      · subst hc
        by_cases h2 : c.key = k2 <;> simp [Header.setComment, get?_cons, h2]
      · simp [Header.setComment, hc, get?_cons, ih]

theorem getComment?_setComment_ne (h : Header) (kc s : String) (k2 : String)
    (hne : k2 ≠ kc) :
    (Header.setComment h kc s).getComment? k2 = h.getComment? k2 := by
  induction h with
  | nil => simp [Header.setComment]
  | cons c rest ih =>
      by_cases hc : c.key = kc
      · subst hc
        simp [Header.setComment, getComment?_cons, Ne.symm hne]
      · simp [Header.setComment, hc, getComment?_cons, ih]

theorem getComment?_setComment_present (h : Header) (kc s : String) (v0 : Value)
    (hp : h.get? kc = some v0) :
    (Header.setComment h kc s).getComment? kc = some s := by
  induction h with
  | nil => simp [Header.get?] at hp
  | cons c rest ih =>
      by_cases hc : c.key = kc
      · simp [Header.setComment, hc, getComment?_cons]
      · rw [get?_cons] at hp
        simp only [hc, if_false] at hp
        simp [Header.setComment, hc, getComment?_cons, ih hp]

theorem getComment?_of_get? (h : Header) (k : String) (v : Value)
    (hp : h.get? k = some v) : h.getComment? k = some (h.getCommentD k) := by
  unfold Header.get? at hp
  unfold Header.getCommentD Header.getComment?
  cases hf : h.find? (fun c => c.key == k) with
  | none => rw [hf] at hp; simp at hp
  | some c => simp [hf]

theorem set_history_eq (h : Header) (v : Value) :
    h.set "HISTORY" v = h ++ [⟨"HISTORY", v, ""⟩] := by
  simp [Header.set]

theorem get?_append_history_isSome (h : Header) (v : Value) :
    ((h ++ [(⟨"HISTORY", v, ""⟩ : Card)]).get? "HISTORY").isSome = true := by
  induction h with
  | nil => simp [Header.get?, List.find?]
  | cons c rest ih =>
      rw [List.cons_append, get?_cons]
      by_cases hc : c.key = "HISTORY" <;> simp [hc, ih]

theorem get?_set_history_isSome (h : Header) (v : Value) :
    ((h.set "HISTORY" v).get? "HISTORY").isSome = true := by
  rw [set_history_eq]
  exact get?_append_history_isSome h v

theorem get?_filter_ne (h : Header) (k k2 : String) (hne : k2 ≠ k) :
    Header.get? (h.filter (fun c => c.key != k)) k2 = h.get? k2 := by
  induction h with
  | nil => rfl
  | cons c rest ih =>
      by_cases hc : c.key = k
      · have hb : (c.key != k) = false := by simp [hc]
        have hck2 : ¬c.key = k2 := by rw [hc]; exact Ne.symm hne
        simp [List.filter_cons, hb, ih, get?_cons, hck2]
      · have hb : (c.key != k) = true := by simp [hc]
        simp [List.filter_cons, hb, ih, get?_cons]

theorem del_ok_get? (h : Header) (k : String) (h2 : Header) (k2 : String)
    (hne : k2 ≠ k) (hdel : h.del k = .ok h2) : h2.get? k2 = h.get? k2 := by
  unfold Header.del at hdel
  by_cases hc : h.any (fun c => c.key == k)
  · rw [if_pos hc] at hdel
    cases hdel
    exact get?_filter_ne h k k2 hne
  · rw [if_neg hc] at hdel
    cases hdel

theorem delKeys_ok_get? (ks : List String) (h : Header) (h2 : Header) (k2 : String)
    (hk2 : k2 ∉ ks) (hdel : h.delKeys ks = .ok h2) : h2.get? k2 = h.get? k2 := by
  induction ks generalizing h with
  | nil =>
      unfold Header.delKeys at hdel
      simp only [List.foldlM] at hdel
      cases hdel
      rfl
  | cons k rest ih =>
      unfold Header.delKeys at hdel ih
      simp only [List.foldlM] at hdel
      cases hd : h.del k with
      | error e => rw [hd] at hdel; simp at hdel
      | ok hmid =>
          rw [hd] at hdel
          simp only [bind_ok_eval] at hdel
          have h1 : k2 ∉ rest := fun hm => hk2 (List.mem_cons_of_mem _ hm)
          have h2ne : k2 ≠ k := fun he => hk2 (he ▸ List.mem_cons_self _ _)
          rw [ih hmid h1 hdel]
          exact del_ok_get? h k hmid k2 h2ne hd

theorem mulVal_ok (h : Header) (k : String) (f : ℚ) (h2 : Header)
    (hm : h.mulVal k f = .ok h2) :
    ∃ x, h.get? k = some (.num x) ∧ h2 = h.set k (.num (x * f)) := by
  unfold Header.mulVal at hm
  cases hg : h.get? k with
  | none => rw [hg] at hm; cases hm
  | some v =>
      cases v with
      | str s => rw [hg] at hm; cases hm
      | num x =>
          rw [hg] at hm
          cases hm
          exact ⟨x, rfl, rfl⟩

theorem stripChecksum_setVal (h : Header) (k : String) (v : Value)
    (hk : (k != "CHECKSUM" && k != "DATASUM") = false) :
    Header.stripChecksumCards (Header.setVal h k v) = h.stripChecksumCards := by
  induction h with
  | nil => simp [Header.setVal, Header.stripChecksumCards, hk]
  | cons c rest ih =>
      by_cases hc : c.key = k
      · have hcb : (c.key != "CHECKSUM" && c.key != "DATASUM") = false := by
          rw [hc]; exact hk
        unfold Header.setVal
        rw [if_pos hc]
        unfold Header.stripChecksumCards at ih ⊢
        rw [List.filter_cons, List.filter_cons]
        simp [hk, hcb]
      · unfold Header.setVal
        rw [if_neg hc]
        unfold Header.stripChecksumCards at ih ⊢
        rw [List.filter_cons, List.filter_cons, ih]

theorem stripChecksum_set_datasum (h : Header) (v : Value) :
    Header.stripChecksumCards (h.set "DATASUM" v) = h.stripChecksumCards := by
  have : h.set "DATASUM" v = Header.setVal h "DATASUM" v := by simp [Header.set]
  rw [this]
  exact stripChecksum_setVal h "DATASUM" v (by decide)

theorem stripChecksum_set_checksum (h : Header) (v : Value) :
    Header.stripChecksumCards (h.set "CHECKSUM" v) = h.stripChecksumCards := by
  have : h.set "CHECKSUM" v = Header.setVal h "CHECKSUM" v := by simp [Header.set]
  rw [this]
  exact stripChecksum_setVal h "CHECKSUM" v (by decide)

theorem add_checksum_valid (hdu : HDU) : (HDU.add_checksum hdu).checksumValid := by
  unfold HDU.add_checksum HDU.checksumValid
  simp only [stripChecksum_set_checksum, stripChecksum_set_datasum]

theorem get?_add_checksum (hdu : HDU) (k : String)
    (h1 : k ≠ "DATASUM") (h2 : k ≠ "CHECKSUM") :
    (HDU.add_checksum hdu).header.get? k = hdu.header.get? k := by
  unfold HDU.add_checksum
  rw [get?_set_ne _ _ _ _ h2, get?_set_ne _ _ _ _ h1]

theorem getComment?_add_checksum (hdu : HDU) (k : String)
    (h1 : k ≠ "DATASUM") (h2 : k ≠ "CHECKSUM") :
    (HDU.add_checksum hdu).header.getComment? k = hdu.header.getComment? k := by
  unfold HDU.add_checksum
  rw [getComment?_set_ne _ _ _ _ h2, getComment?_set_ne _ _ _ _ h1]

/-! ### Lemmas about the per-object header builders -/

theorem get?_mkFluxHeader0_ne (eh : Header) (k : String) (hk : k ≠ "EXTNAME") :
    (mkFluxHeader0 eh).get? k = eh.get? k := by
  unfold mkFluxHeader0
  rw [get?_setComment, get?_set_ne _ _ _ _ hk]

theorem getComment?_mkFluxHeader0_ne (eh : Header) (k : String)
    (hk : k ≠ "EXTNAME") :
    (mkFluxHeader0 eh).getComment? k = eh.getComment? k := by
  unfold mkFluxHeader0
  rw [getComment?_setComment_ne _ _ _ _ hk, getComment?_set_ne _ _ _ _ hk]

theorem get?_mkFluxHeader0_extname (eh : Header) :
    (mkFluxHeader0 eh).get? "EXTNAME" = some (.str "input_spectrum") := by
  unfold mkFluxHeader0
  rw [get?_setComment, get?_set_self _ _ _ (by decide)]

theorem get?_mkSigmaHeader0_ne (sh : Header) (k : String) (hk : k ≠ "EXTNAME") :
    (mkSigmaHeader0 sh).get? k = sh.get? k := by
  unfold mkSigmaHeader0
  rw [get?_setComment, get?_set_ne _ _ _ _ hk]

theorem getComment?_mkSigmaHeader0_ne (sh : Header) (k : String)
    (hk : k ≠ "EXTNAME") :
    (mkSigmaHeader0 sh).getComment? k = sh.getComment? k := by
  unfold mkSigmaHeader0
  rw [getComment?_setComment_ne _ _ _ _ hk, getComment?_set_ne _ _ _ _ hk]

theorem get?_mkSigmaHeader0_extname (sh : Header) :
    (mkSigmaHeader0 sh).get? "EXTNAME" = some (.str "input_sigma") := by
  unfold mkSigmaHeader0
  rw [get?_setComment, get?_set_self _ _ _ (by decide)]

theorem get?_mkFh1_ne (fh : Header) (vb vh : ℚ) (k : String)
    (h1 : k ≠ "V_BARY") (h2 : k ≠ "V_HELIO") (h3 : k ≠ "HISTORY") :
    (mkFh1 fh vb vh).get? k = fh.get? k := by
  unfold mkFh1
  rw [get?_set_ne _ _ _ _ h3, get?_setComment, get?_setComment,
    get?_set_ne _ _ _ _ h2, get?_set_ne _ _ _ _ h1]

theorem getComment?_mkFh1_ne (fh : Header) (vb vh : ℚ) (k : String)
    (h1 : k ≠ "V_BARY") (h2 : k ≠ "V_HELIO") (h3 : k ≠ "HISTORY") :
    (mkFh1 fh vb vh).getComment? k = fh.getComment? k := by
  unfold mkFh1
  rw [getComment?_set_ne _ _ _ _ h3, getComment?_setComment_ne _ _ _ _ h2,
    getComment?_setComment_ne _ _ _ _ h1, getComment?_set_ne _ _ _ _ h2,
    getComment?_set_ne _ _ _ _ h1]

theorem get?_mkFh1_vbary (fh : Header) (vb vh : ℚ) :
    (mkFh1 fh vb vh).get? "V_BARY" = some (.num vb) := by
  unfold mkFh1
  rw [get?_set_ne _ _ _ _ (by decide), get?_setComment, get?_setComment,
    get?_set_ne _ _ _ _ (by decide), get?_set_self _ _ _ (by decide)]

theorem get?_mkFh1_vhelio (fh : Header) (vb vh : ℚ) :
    (mkFh1 fh vb vh).get? "V_HELIO" = some (.num vh) := by
  unfold mkFh1
  rw [get?_set_ne _ _ _ _ (by decide), get?_setComment, get?_setComment,
    get?_set_self _ _ _ (by decide)]

theorem get?_mkFh1_history_isSome (fh : Header) (vb vh : ℚ) :
    ((mkFh1 fh vb vh).get? "HISTORY").isSome = true := by
  unfold mkFh1
  exact get?_set_history_isSome _ _

/-! ### Characterisation of the wavelength-axis copy loop -/

theorem copyWavelengthKeys_ok (src : Header) (sh0 : Header)
    (h : copyWavelengthKeys src [] = .ok sh0) :
    ∃ v1 v2 v3 v4 v5,
      src.get? "CRVAL1" = some v1 ∧ src.get? "CDELT1" = some v2 ∧
      src.get? "CRPIX1" = some v3 ∧ src.get? "CTYPE1" = some v4 ∧
      src.get? "CUNIT1" = some v5 ∧
      sh0 = [⟨"CRVAL1", v1, src.getCommentD "CRVAL1"⟩,
             ⟨"CDELT1", v2, src.getCommentD "CDELT1"⟩,
             ⟨"CRPIX1", v3, src.getCommentD "CRPIX1"⟩,
             ⟨"CTYPE1", v4, src.getCommentD "CTYPE1"⟩,
             ⟨"CUNIT1", v5, src.getCommentD "CUNIT1"⟩] := by
  unfold copyWavelengthKeys wavelengthKeys at h
  simp only [List.foldlM] at h
  cases h1 : src.get? "CRVAL1" with
  | none => rw [h1] at h; simp at h
  | some v1 =>
  rw [h1] at h
  simp only [bind_ok_eval] at h
  cases h2 : src.get? "CDELT1" with
  | none => rw [h2] at h; simp at h
  | some v2 =>
  rw [h2] at h
  simp only [bind_ok_eval] at h
  cases h3 : src.get? "CRPIX1" with
  | none => rw [h3] at h; simp at h
  | some v3 =>
  rw [h3] at h
  simp only [bind_ok_eval] at h
  cases h4 : src.get? "CTYPE1" with
  | none => rw [h4] at h; simp at h
  | some v4 =>
  rw [h4] at h
  simp only [bind_ok_eval] at h
  cases h5 : src.get? "CUNIT1" with
  | none => rw [h5] at h; simp at h
  | some v5 =>
  rw [h5] at h
  simp only [bind_ok_eval, pure_eval] at h
  injection h with h2
  refine ⟨v1, v2, v3, v4, v5, rfl, rfl, rfl, rfl, rfl, ?_⟩
  rw [← h2]
  rfl

/-! ### The placeholder extensions -/

theorem dummy_ccf_extname (o : Option HDUList) :
    (dummy_ccf_hdu o).header.get? "EXTNAME" = some (.str "CCF") := rfl

theorem dummy_ccf_valid (o : Option HDUList) :
    (dummy_ccf_hdu o).checksumValid := by
  unfold dummy_ccf_hdu
  exact add_checksum_valid _

theorem dummy_norm_ok (hl : HDUList) (ns : HDUList)
    (h : dummy_normalisation_hdus (some hl) = .ok ns) :
    ∃ n1 n2, ns = [n1, n2] ∧
      n1.header.get? "EXTNAME" = some (.str "normalised_spectrum") ∧
      n1.checksumValid ∧
      n2.header.get? "EXTNAME" = some (.str "normalised_sigma") ∧
      n2.checksumValid := by
  unfold dummy_normalisation_hdus at h
  simp only at h
  cases hg : getOutHDU hl 0 with
  | error err => rw [hg] at h; simp at h
  | ok hdu0 =>
  rw [hg] at h
  simp only [bind_ok_eval] at h
  cases hc : copyWavelengthKeys hdu0.header [] with
  | error err => rw [hc] at h; simp at h
  | ok ch =>
  rw [hc] at h
  simp only [bind_ok_eval, pure_eval] at h
  refine ⟨HDU.add_checksum ⟨(ch.set "EXTNAME" (.str "normalised_spectrum")).setComment
      "EXTNAME" "Normalised spectrum flux", none, none⟩,
    HDU.add_checksum ⟨(ch.set "EXTNAME" (.str "normalised_sigma")).setComment
      "EXTNAME" "Normalised flux sigma", none, none⟩, ?_, ?_, ?_, ?_, ?_⟩
  · injection h with h2
    exact h2.symm
  · rw [get?_add_checksum _ _ (by decide) (by decide)]
    rw [get?_setComment, get?_set_self _ _ _ (by decide)]
  · exact add_checksum_valid _
  · rw [get?_add_checksum _ _ (by decide) (by decide)]
    rw [get?_setComment, get?_set_self _ _ _ (by decide)]
  · exact add_checksum_valid _

theorem assembleTail_ok (d : Bool) (hl : HDUList) (p : HDUList)
    (h : assembleTail d hl = .ok p) :
    (d = true → ∃ normed, dummy_normalisation_hdus (some hl) = .ok normed ∧
      p = hl ++ normed ++ [dummy_ccf_hdu (some hl)]) ∧
    (d = false → p = hl) := by
  cases d with
  | false =>
      unfold assembleTail at h
      simp only [Bool.false_eq_true, if_false, pure_eval] at h
      injection h with h2
      exact ⟨(fun hh => nomatch hh), fun _ => h2.symm⟩
  | true =>
      unfold assembleTail at h
      simp only [if_true] at h
      cases hn : dummy_normalisation_hdus (some hl) with
      | error err => rw [hn] at h; simp at h
      | ok normed =>
          rw [hn] at h
          simp only [bind_ok_eval, pure_eval] at h
          injection h with h2
          exact ⟨fun _ => ⟨normed, rfl, h2.symm⟩, (fun hh => nomatch hh)⟩

/-! ### Characterisation of the header enrichment loop -/

theorem enrichHeader_eq (t : Header) (i : ℕ) (row : FibreRow) :
    enrichHeader t i row = .ok (enrichResult t i row) := by
  have hRA : (enrichStage1 t i row).get? "RA" = some (.num row.RA) := by
    unfold enrichStage1
    rw [get?_set_ne _ _ _ _ (by decide), get?_set_ne _ _ _ _ (by decide),
      get?_set_ne _ _ _ _ (by decide), get?_set_ne _ _ _ _ (by decide),
      get?_set_ne _ _ _ _ (by decide), get?_set_self _ _ _ (by decide)]
  have hmRA : (enrichStage1 t i row).mulVal "RA" deg_per_rad =
      .ok ((enrichStage1 t i row).set "RA" (.num (row.RA * deg_per_rad))) := by
    unfold Header.mulVal
    rw [hRA]
  have hDEC : ((enrichStage1 t i row).set "RA"
      (.num (row.RA * deg_per_rad))).get? "DEC" = some (.num row.DEC) := by
    rw [get?_set_ne _ _ _ _ (by decide)]
    unfold enrichStage1
    rw [get?_set_ne _ _ _ _ (by decide), get?_set_ne _ _ _ _ (by decide),
      get?_set_ne _ _ _ _ (by decide), get?_set_ne _ _ _ _ (by decide),
      get?_set_self _ _ _ (by decide)]
  have hmDEC : ((enrichStage1 t i row).set "RA"
      (.num (row.RA * deg_per_rad))).mulVal "DEC" deg_per_rad =
      .ok (((enrichStage1 t i row).set "RA"
        (.num (row.RA * deg_per_rad))).set "DEC"
        (.num (row.DEC * deg_per_rad))) := by
    unfold Header.mulVal
    rw [hDEC]
  have kEval : enrichHeader t i row =
      (enrichStage1 t i row).mulVal "RA" deg_per_rad >>= fun hra =>
        hra.mulVal "DEC" deg_per_rad >>= fun h2 =>
          pure (keyword_comments.foldl (fun hh p => hh.setComment p.1 p.2) h2) := rfl
  rw [kEval, hmRA]
  simp only [bind_ok_eval]
  rw [hmDEC]
  simp only [bind_ok_eval, pure_eval]
  rfl

theorem enrichHeader_ok_parts (t : Header) (i : ℕ) (row : FibreRow) (res : Header)
    (h : enrichHeader t i row = .ok res) :
    res.get? "RA" = some (.num (row.RA * deg_per_rad)) ∧
    res.get? "DEC" = some (.num (row.DEC * deg_per_rad)) ∧
    res.get? "FIBRE" = some (.num ((i : ℚ) + 1)) ∧
    res.get? "NAME" = some (.str row.NAME) ∧
    res.get? "PMRA" = some (.num row.PMRA) ∧
    res.get? "PMDEC" = some (.num row.PMDEC) ∧
    res.get? "MAG" = some (.num row.MAGNITUDE) ∧
    res.get? "DESCR" = some (.str row.COMMENT) ∧
    ∀ k, k ∉ enrichTouchedKeys →
      res.get? k = t.get? k ∧ res.getComment? k = t.getComment? k := by
  rw [enrichHeader_eq] at h
  injection h with hres
  subst hres
  unfold enrichResult enrichStage1
  simp only [keyword_comments, List.foldl]
  refine ⟨?_, ?_, ?_, ?_, ?_, ?_, ?_, ?_, ?_⟩
  · simp only [get?_setComment]
    rw [get?_set_ne _ _ _ _ (by decide), get?_set_self _ _ _ (by decide)]
  · simp only [get?_setComment]
    rw [get?_set_self _ _ _ (by decide)]
  · simp only [get?_setComment]
    rw [get?_set_ne _ _ _ _ (by decide), get?_set_ne _ _ _ _ (by decide),
      get?_set_ne _ _ _ _ (by decide), get?_set_ne _ _ _ _ (by decide),
      get?_set_ne _ _ _ _ (by decide), get?_set_ne _ _ _ _ (by decide),
      get?_set_ne _ _ _ _ (by decide), get?_set_ne _ _ _ _ (by decide),
      get?_set_ne _ _ _ _ (by decide), get?_set_self _ _ _ (by decide)]
  · simp only [get?_setComment]
    rw [get?_set_ne _ _ _ _ (by decide), get?_set_ne _ _ _ _ (by decide),
      get?_set_ne _ _ _ _ (by decide), get?_set_ne _ _ _ _ (by decide),
      get?_set_ne _ _ _ _ (by decide), get?_set_ne _ _ _ _ (by decide),
      get?_set_ne _ _ _ _ (by decide), get?_set_ne _ _ _ _ (by decide),
      get?_set_self _ _ _ (by decide)]
  · simp only [get?_setComment]
    rw [get?_set_ne _ _ _ _ (by decide), get?_set_ne _ _ _ _ (by decide),
      get?_set_ne _ _ _ _ (by decide), get?_set_ne _ _ _ _ (by decide),
      get?_set_ne _ _ _ _ (by decide), get?_set_self _ _ _ (by decide)]
  · simp only [get?_setComment]
    rw [get?_set_ne _ _ _ _ (by decide), get?_set_ne _ _ _ _ (by decide),
      get?_set_ne _ _ _ _ (by decide), get?_set_ne _ _ _ _ (by decide),
      get?_set_self _ _ _ (by decide)]
  · simp only [get?_setComment]
    rw [get?_set_ne _ _ _ _ (by decide), get?_set_ne _ _ _ _ (by decide),
      get?_set_ne _ _ _ _ (by decide), get?_set_self _ _ _ (by decide)]
  · simp only [get?_setComment]
    rw [get?_set_ne _ _ _ _ (by decide), get?_set_ne _ _ _ _ (by decide),
      get?_set_self _ _ _ (by decide)]
  · intro k hk
    simp only [enrichTouchedKeys, List.mem_cons, List.not_mem_nil, or_false,
      not_or] at hk
    obtain ⟨n1, n2, n3, n4, n5, n6, n7, n8⟩ := hk
    constructor
    · simp only [get?_setComment]
      rw [get?_set_ne _ _ _ _ n4, get?_set_ne _ _ _ _ n3,
        get?_set_ne _ _ _ _ n8, get?_set_ne _ _ _ _ n7,
        get?_set_ne _ _ _ _ n6, get?_set_ne _ _ _ _ n5,
        get?_set_ne _ _ _ _ n4, get?_set_ne _ _ _ _ n3,
        get?_set_ne _ _ _ _ n2, get?_set_ne _ _ _ _ n1]
    · rw [getComment?_setComment_ne _ _ _ _ n1, getComment?_setComment_ne _ _ _ _ n6,
        getComment?_setComment_ne _ _ _ _ n5, getComment?_setComment_ne _ _ _ _ n4,
        getComment?_setComment_ne _ _ _ _ n3, getComment?_setComment_ne _ _ _ _ n7,
        getComment?_setComment_ne _ _ _ _ n8, getComment?_setComment_ne _ _ _ _ n2,
        getComment?_set_ne _ _ _ _ n4, getComment?_set_ne _ _ _ _ n3,
        getComment?_set_ne _ _ _ _ n8, getComment?_set_ne _ _ _ _ n7,
        getComment?_set_ne _ _ _ _ n6, getComment?_set_ne _ _ _ _ n5,
        getComment?_set_ne _ _ _ _ n4, getComment?_set_ne _ _ _ _ n3,
        getComment?_set_ne _ _ _ _ n2, getComment?_set_ne _ _ _ _ n1]

/-! ### Decomposition of the pipeline -/

theorem extractLoop_ok (e : Externals) (im : Image) (x : ExtIndices) (t : Header)
    (d : Bool) (idxs : List ℕ) (ps : List HDUList)
    (h : extractLoop e im x t d idxs = .ok ps) :
    ps.length = idxs.length ∧
    ∀ k i, idxs.get? k = some i →
      ∃ p, ps.get? k = some p ∧ processObject e im x t d i = .ok p := by
  induction idxs generalizing ps with
  | nil =>
      unfold extractLoop at h
      injection h with h2
      subst h2
      exact ⟨rfl, fun k i hk => by simp at hk⟩
  | cons i rest ih =>
      unfold extractLoop at h
      cases hp : processObject e im x t d i with
      | error err => rw [hp] at h; simp at h
      | ok p0 =>
        rw [hp] at h
        simp only [bind_ok_eval] at h
        cases hr : extractLoop e im x t d rest with
        | error err => rw [hr] at h; simp at h
        | ok tail =>
          rw [hr] at h
          simp only [bind_ok_eval, pure_eval] at h
          injection h with h2
          subst h2
          obtain ⟨hlen, hcorr⟩ := ih tail hr
          refine ⟨by simp [hlen], ?_⟩
          intro k j hk
          cases k with
          | zero =>
              simp only [List.get?] at hk ⊢
              injection hk with hk2
              subst hk2
              exact ⟨p0, rfl, hp⟩
          | succ k2 =>
              simp only [List.get?] at hk ⊢
              exact hcorr k2 j hk

theorem from_2dfdr_fst (e : Externals) (im : Image) (d : Bool) :
    (from_2dfdr e im d).1 = from_2dfdr_body e im d := by
  unfold from_2dfdr
  cases from_2dfdr_body e im d <;> rfl

theorem from_2dfdr_snd (e : Externals) (im : Image) (d : Bool) :
    (from_2dfdr e im d).2 = (from_2dfdr_body e im d).isOk := by
  unfold from_2dfdr
  cases from_2dfdr_body e im d <;> rfl

theorem read_ok_data (im : Image) (exts : ExtIndices)
    (h : read_2dfdr_extensions im = .ok exts) : exts.data = 0 := by
  unfold read_2dfdr_extensions at h
  cases hm : im.mapM extnameOf with
  | error err => rw [hm] at h; simp at h
  | ok extnames =>
    rw [hm] at h
    simp only [bind_ok_eval] at h
    cases hv : extnames.findIdx? (fun s => s == "VARIANCE") with
    | none => rw [hv] at h; simp at h
    | some v =>
      rw [hv] at h
      simp only [bind_ok_eval] at h
      cases hf : extnames.findIdx? (fun s => s == "FIBRES") with
      | none => rw [hf] at h; simp at h
      | some f =>
        rw [hf] at h
        simp only [bind_ok_eval, pure_eval] at h
        injection h with h2
        subst h2
        rfl

theorem from_2dfdr_body_ok (e : Externals) (im : Image) (d : Bool)
    (ps : List HDUList) (h : from_2dfdr_body e im d = .ok ps) :
    ∃ exts hdu0 t1 cn rows,
      read_2dfdr_extensions im = .ok exts ∧ exts.data = 0 ∧
      verify_hermes_origin im = .ok () ∧
      getHDU im exts.data = .ok hdu0 ∧
      hdu0.header.delKeys axis2Keys = .ok t1 ∧
      get_ccd_number im = .ok cn ∧
      getTable im exts.fibres = .ok rows ∧
      extractLoop e im exts (finishTemplate t1 cn) d (programIndices rows) =
        .ok ps := by
  unfold from_2dfdr_body at h
  cases h1 : read_2dfdr_extensions im with
  | error err => rw [h1] at h; simp at h
  | ok exts =>
  rw [h1] at h
  simp only [bind_ok_eval] at h
  cases h2 : verify_hermes_origin im with
  | error err => rw [h2] at h; simp at h
  | ok u =>
  rw [h2] at h
  simp only [bind_ok_eval] at h
  cases h3 : getHDU im exts.data with
  | error err => rw [h3] at h; simp at h
  | ok hdu0 =>
  rw [h3] at h
  simp only [bind_ok_eval] at h
  cases h4 : hdu0.header.delKeys axis2Keys with
  | error err => rw [h4] at h; simp at h
  | ok t1 =>
  rw [h4] at h
  simp only [bind_ok_eval] at h
  cases h5 : get_ccd_number im with
  | error err => rw [h5] at h; simp at h
  | ok cn =>
  rw [h5] at h
  simp only [bind_ok_eval] at h
  cases h6 : getTable im exts.fibres with
  | error err => rw [h6] at h; simp at h
  | ok rows =>
  rw [h6] at h
  simp only [bind_ok_eval] at h
  exact ⟨exts, hdu0, t1, cn, rows, rfl, read_ok_data im exts h1, rfl, h3, h4,
    rfl, h6, h⟩

/-! ### Properties of the program-fibre index list -/

theorem programIndicesFrom_length (rows : List FibreRow) :
    ∀ n, (programIndicesFrom n rows).length =
      rows.countP (fun r => r.TYPE == "P") := by
  induction rows with
  | nil => intro n; rfl
  | cons r rest ih =>
      intro n
      by_cases hr : (r.TYPE == "P") = true
      · simp [programIndicesFrom, hr, List.countP_cons, ih]
      · simp [programIndicesFrom, hr, List.countP_cons, ih]

theorem mem_programIndicesFrom_ge (rows : List FibreRow) :
    ∀ n m, m ∈ programIndicesFrom n rows → n ≤ m := by
  induction rows with
  | nil => intro n m hm; simp [programIndicesFrom] at hm
  | cons r rest ih =>
      intro n m hm
      by_cases hr : (r.TYPE == "P") = true
      · rw [programIndicesFrom, if_pos hr] at hm
        rcases List.mem_cons.mp hm with h1 | h2
        · exact h1 ▸ le_refl n
        · exact le_trans (Nat.le_succ n) (ih (n + 1) m h2)
      · rw [programIndicesFrom, if_neg hr] at hm
        exact le_trans (Nat.le_succ n) (ih (n + 1) m hm)

theorem programIndicesFrom_pairwise (rows : List FibreRow) :
    ∀ n, List.Pairwise (fun a b => a < b) (programIndicesFrom n rows) := by
  induction rows with
  | nil => intro n; exact List.Pairwise.nil
  | cons r rest ih =>
      intro n
      by_cases hr : (r.TYPE == "P") = true
      · rw [programIndicesFrom, if_pos hr]
        refine List.Pairwise.cons ?_ (ih (n + 1))
        intro m hm
        exact lt_of_lt_of_le (Nat.lt_succ_self n)
          (mem_programIndicesFrom_ge rest (n + 1) m hm)
      · rw [programIndicesFrom, if_neg hr]
        exact ih (n + 1)

theorem programIndices_length (rows : List FibreRow) :
    (programIndices rows).length = rows.countP (fun r => r.TYPE == "P") :=
  programIndicesFrom_length rows 0

theorem programIndices_pairwise (rows : List FibreRow) :
    List.Pairwise (fun a b => a < b) (programIndices rows) :=
  programIndicesFrom_pairwise rows 0

/-! ### Decomposition of the per-object pipeline -/

theorem processObject_ok (e : Externals) (im : Image) (x : ExtIndices)
    (t : Header) (d : Bool) (i : ℕ) (p : HDUList)
    (h : processObject e im x t d i = .ok p) :
    ∃ flux variance row eh sh0 vb vh x1 y1 x2 y2,
      getImageRow im x.data i = .ok flux ∧
      getImageRow im x.variance i = .ok variance ∧
      getTableRow im x.fibres i = .ok row ∧
      enrichHeader t i row = .ok eh ∧
      copyWavelengthKeys (mkFluxHeader0 eh) [] = .ok sh0 ∧
      e.motionFromHeader (mkFluxHeader0 eh) = .ok (vb, vh) ∧
      (mkFh1 (mkFluxHeader0 eh) vb vh).get? "CRVAL1" = some (.num x1) ∧
      ((mkFh1 (mkFluxHeader0 eh) vb vh).set "CRVAL1"
        (.num (x1 * (1 + vb / speed_of_light)))).get? "CDELT1" =
        some (.num y1) ∧
      (mkSigmaHeader0 sh0).get? "CRVAL1" = some (.num x2) ∧
      ((mkSigmaHeader0 sh0).set "CRVAL1"
        (.num (x2 * (1 + vb / speed_of_light)))).get? "CDELT1" =
        some (.num y2) ∧
      assembleTail d [fluxFinalHdu eh vb vh x1 y1 flux,
        sigmaFinalHdu sh0 vb x2 y2 (variance.map e.sqrt)] = .ok p := by
  unfold processObject at h
  cases h1 : getImageRow im x.data i with
  | error err => rw [h1] at h; simp at h
  | ok flux =>
  rw [h1] at h
  simp only [bind_ok_eval] at h
  cases h2 : getImageRow im x.variance i with
  | error err => rw [h2] at h; simp at h
  | ok variance =>
  rw [h2] at h
  simp only [bind_ok_eval] at h
  cases h3 : getTableRow im x.fibres i with
  | error err => rw [h3] at h; simp at h
  | ok row =>
  rw [h3] at h
  simp only [bind_ok_eval] at h
  cases h4 : enrichHeader t i row with
  | error err => rw [h4] at h; simp at h
  | ok eh =>
  rw [h4] at h
  simp only [bind_ok_eval] at h
  cases h5 : copyWavelengthKeys (mkFluxHeader0 eh) [] with
  | error err => rw [h5] at h; simp at h
  | ok sh0 =>
  rw [h5] at h
  simp only [bind_ok_eval] at h
  cases h6 : e.motionFromHeader (mkFluxHeader0 eh) with
  | error err => rw [h6] at h; simp at h
  | ok mot =>
  obtain ⟨vb, vh⟩ := mot
  rw [h6] at h
  simp only [bind_ok_eval] at h
  cases h7 : (mkFh1 (mkFluxHeader0 eh) vb vh).mulVal "CRVAL1"
      (1 + vb / speed_of_light) with
  | error err => rw [h7] at h; simp at h
  | ok fh2 =>
  rw [h7] at h
  simp only [bind_ok_eval] at h
  obtain ⟨x1, hx1, hfh2⟩ := mulVal_ok _ _ _ _ h7
  subst hfh2
  cases h8 : ((mkFh1 (mkFluxHeader0 eh) vb vh).set "CRVAL1"
      (.num (x1 * (1 + vb / speed_of_light)))).mulVal "CDELT1"
      (1 + vb / speed_of_light) with
  | error err => rw [h8] at h; simp at h
  | ok fh3 =>
  rw [h8] at h
  simp only [bind_ok_eval] at h
  obtain ⟨y1, hy1, hfh3⟩ := mulVal_ok _ _ _ _ h8
  subst hfh3
  cases h9 : (mkSigmaHeader0 sh0).mulVal "CRVAL1"
      (1 + vb / speed_of_light) with
  | error err => rw [h9] at h; simp at h
  | ok sh2 =>
  rw [h9] at h
  simp only [bind_ok_eval] at h
  obtain ⟨x2, hx2, hsh2⟩ := mulVal_ok _ _ _ _ h9
  subst hsh2
  cases h10 : ((mkSigmaHeader0 sh0).set "CRVAL1"
      (.num (x2 * (1 + vb / speed_of_light)))).mulVal "CDELT1"
      (1 + vb / speed_of_light) with
  | error err => rw [h10] at h; simp at h
  | ok sh3 =>
  rw [h10] at h
  simp only [bind_ok_eval] at h
  obtain ⟨y2, hy2, hsh3⟩ := mulVal_ok _ _ _ _ h10
  subst hsh3
  exact ⟨flux, variance, row, eh, sh0, vb, vh, x1, y1, x2, y2, rfl, rfl, rfl,
    h4, h5, h6, hx1, hy1, hx2, hy2, h⟩

/-- Everything known about object number k of a successful run. -/
theorem run_object_spec (e : Externals) (im : Image) (d : Bool)
    (ps : List HDUList) (k : ℕ) (p : HDUList)
    (hrun : (from_2dfdr e im d).1 = .ok ps) (hp : ps.get? k = some p) :
    ∃ exts hdu0 t1 cn rows i row eh sh0 vb vh x1 y1 x2 y2 flux variance,
      read_2dfdr_extensions im = .ok exts ∧
      exts.data = 0 ∧
      getHDU im exts.data = .ok hdu0 ∧
      hdu0.header.delKeys axis2Keys = .ok t1 ∧
      get_ccd_number im = .ok cn ∧
      getTable im exts.fibres = .ok rows ∧
      (programIndices rows).get? k = some i ∧
      getImageRow im exts.data i = .ok flux ∧
      getImageRow im exts.variance i = .ok variance ∧
      getTableRow im exts.fibres i = .ok row ∧
      enrichHeader (finishTemplate t1 cn) i row = .ok eh ∧
      copyWavelengthKeys (mkFluxHeader0 eh) [] = .ok sh0 ∧
      e.motionFromHeader (mkFluxHeader0 eh) = .ok (vb, vh) ∧
      (mkFh1 (mkFluxHeader0 eh) vb vh).get? "CRVAL1" = some (.num x1) ∧
      ((mkFh1 (mkFluxHeader0 eh) vb vh).set "CRVAL1"
        (.num (x1 * (1 + vb / speed_of_light)))).get? "CDELT1" =
        some (.num y1) ∧
      (mkSigmaHeader0 sh0).get? "CRVAL1" = some (.num x2) ∧
      ((mkSigmaHeader0 sh0).set "CRVAL1"
        (.num (x2 * (1 + vb / speed_of_light)))).get? "CDELT1" =
        some (.num y2) ∧
      assembleTail d [fluxFinalHdu eh vb vh x1 y1 flux,
        sigmaFinalHdu sh0 vb x2 y2 (variance.map e.sqrt)] = .ok p := by
  rw [from_2dfdr_fst] at hrun
  obtain ⟨exts, hdu0, t1, cn, rows, hre, hd0, hver, hghdu, hdel, hccd, hrows,
    hloop⟩ := from_2dfdr_body_ok e im d ps hrun
  obtain ⟨hlen, hcorr⟩ := extractLoop_ok e im exts (finishTemplate t1 cn) d
    (programIndices rows) ps hloop
  have hkidx : ∃ i, (programIndices rows).get? k = some i := by
    cases hoi : (programIndices rows).get? k with
    | some i => exact ⟨i, rfl⟩
    | none =>
        exfalso
        have hklen : k < ps.length := (List.get?_eq_some.mp hp).1
        rw [hlen] at hklen
        rw [List.get?_eq_none] at hoi
        exact absurd hklen (not_lt.mpr hoi)
  obtain ⟨i, hi⟩ := hkidx
  obtain ⟨p2, hp2, hproc⟩ := hcorr k i hi
  rw [hp] at hp2
  injection hp2 with hp2e
  subst hp2e
  obtain ⟨flux, variance, row, eh, sh0, vb, vh, x1, y1, x2, y2, hIm1, hIm2,
    hTR, hEnr, hCopy, hMot, hx1, hy1, hx2, hy2, hAsm⟩ :=
    processObject_ok e im exts (finishTemplate t1 cn) d i p hproc
  exact ⟨exts, hdu0, t1, cn, rows, i, row, eh, sh0, vb, vh, x1, y1, x2, y2,
    flux, variance, hre, hd0, hghdu, hdel, hccd, hrows, hi, hIm1, hIm2, hTR,
    hEnr, hCopy, hMot, hx1, hy1, hx2, hy2, hAsm⟩

/-! ### Lookups on the finished flux and sigma HDUs -/

theorem fluxFinal_get?_ne (eh : Header) (vb vh x1 y1 : ℚ) (flux : List ℚ)
    (k : String) (h1 : k ≠ "CRVAL1") (h2 : k ≠ "CDELT1") (h3 : k ≠ "V_BARY")
    (h4 : k ≠ "V_HELIO") (h5 : k ≠ "HISTORY") (h6 : k ≠ "EXTNAME")
    (h7 : k ≠ "DATASUM") (h8 : k ≠ "CHECKSUM") :
    (fluxFinalHdu eh vb vh x1 y1 flux).header.get? k = eh.get? k := by
  unfold fluxFinalHdu
  rw [get?_add_checksum _ _ h7 h8]
  dsimp only
  rw [get?_set_ne _ _ _ _ h2, get?_set_ne _ _ _ _ h1,
    get?_mkFh1_ne _ _ _ _ h3 h4 h5, get?_mkFluxHeader0_ne _ _ h6]

theorem fluxFinal_get?_crval (eh : Header) (vb vh x1 y1 : ℚ) (flux : List ℚ) :
    (fluxFinalHdu eh vb vh x1 y1 flux).header.get? "CRVAL1" =
      some (.num (x1 * (1 + vb / speed_of_light))) := by
  unfold fluxFinalHdu
  rw [get?_add_checksum _ _ (by decide) (by decide)]
  dsimp only
  rw [get?_set_ne _ _ _ _ (by decide), get?_set_self _ _ _ (by decide)]

theorem fluxFinal_get?_cdelt (eh : Header) (vb vh x1 y1 : ℚ) (flux : List ℚ) :
    (fluxFinalHdu eh vb vh x1 y1 flux).header.get? "CDELT1" =
      some (.num (y1 * (1 + vb / speed_of_light))) := by
  unfold fluxFinalHdu
  rw [get?_add_checksum _ _ (by decide) (by decide)]
  dsimp only
  rw [get?_set_self _ _ _ (by decide)]

theorem fluxFinal_get?_vbary (eh : Header) (vb vh x1 y1 : ℚ) (flux : List ℚ) :
    (fluxFinalHdu eh vb vh x1 y1 flux).header.get? "V_BARY" =
      some (.num vb) := by
  unfold fluxFinalHdu
  rw [get?_add_checksum _ _ (by decide) (by decide)]
  dsimp only
  rw [get?_set_ne _ _ _ _ (by decide), get?_set_ne _ _ _ _ (by decide),
    get?_mkFh1_vbary]

theorem fluxFinal_get?_vhelio (eh : Header) (vb vh x1 y1 : ℚ) (flux : List ℚ) :
    (fluxFinalHdu eh vb vh x1 y1 flux).header.get? "V_HELIO" =
      some (.num vh) := by
  unfold fluxFinalHdu
  rw [get?_add_checksum _ _ (by decide) (by decide)]
  dsimp only
  rw [get?_set_ne _ _ _ _ (by decide), get?_set_ne _ _ _ _ (by decide),
    get?_mkFh1_vhelio]

theorem fluxFinal_get?_extname (eh : Header) (vb vh x1 y1 : ℚ)
    (flux : List ℚ) :
    (fluxFinalHdu eh vb vh x1 y1 flux).header.get? "EXTNAME" =
      some (.str "input_spectrum") := by
  unfold fluxFinalHdu
  rw [get?_add_checksum _ _ (by decide) (by decide)]
  dsimp only
  rw [get?_set_ne _ _ _ _ (by decide), get?_set_ne _ _ _ _ (by decide),
    get?_mkFh1_ne _ _ _ _ (by decide) (by decide) (by decide),
    get?_mkFluxHeader0_extname]

theorem fluxFinal_get?_history (eh : Header) (vb vh x1 y1 : ℚ)
    (flux : List ℚ) :
    ((fluxFinalHdu eh vb vh x1 y1 flux).header.get? "HISTORY").isSome =
      true := by
  unfold fluxFinalHdu
  rw [get?_add_checksum _ _ (by decide) (by decide)]
  dsimp only
  rw [get?_set_ne _ _ _ _ (by decide), get?_set_ne _ _ _ _ (by decide)]
  exact get?_mkFh1_history_isSome _ _ _

theorem fluxFinal_getComment?_ne (eh : Header) (vb vh x1 y1 : ℚ)
    (flux : List ℚ) (k : String) (h1 : k ≠ "CRVAL1") (h2 : k ≠ "CDELT1")
    (h3 : k ≠ "V_BARY") (h4 : k ≠ "V_HELIO") (h5 : k ≠ "HISTORY")
    (h6 : k ≠ "EXTNAME") (h7 : k ≠ "DATASUM") (h8 : k ≠ "CHECKSUM") :
    (fluxFinalHdu eh vb vh x1 y1 flux).header.getComment? k =
      eh.getComment? k := by
  unfold fluxFinalHdu
  rw [getComment?_add_checksum _ _ h7 h8]
  dsimp only
  rw [getComment?_set_ne _ _ _ _ h2, getComment?_set_ne _ _ _ _ h1,
    getComment?_mkFh1_ne _ _ _ _ h3 h4 h5, getComment?_mkFluxHeader0_ne _ _ h6]

theorem fluxFinal_valid (eh : Header) (vb vh x1 y1 : ℚ) (flux : List ℚ) :
    (fluxFinalHdu eh vb vh x1 y1 flux).checksumValid := by
  unfold fluxFinalHdu
  exact add_checksum_valid _

theorem sigmaFinal_get?_ne (sh0 : Header) (vb x2 y2 : ℚ) (sigdata : List ℚ)
    (k : String) (h1 : k ≠ "CRVAL1") (h2 : k ≠ "CDELT1") (h6 : k ≠ "EXTNAME")
    (h7 : k ≠ "DATASUM") (h8 : k ≠ "CHECKSUM") :
    (sigmaFinalHdu sh0 vb x2 y2 sigdata).header.get? k = sh0.get? k := by
  unfold sigmaFinalHdu
  rw [get?_add_checksum _ _ h7 h8]
  dsimp only
  rw [get?_set_ne _ _ _ _ h2, get?_set_ne _ _ _ _ h1,
    get?_mkSigmaHeader0_ne _ _ h6]

theorem sigmaFinal_get?_crval (sh0 : Header) (vb x2 y2 : ℚ)
    (sigdata : List ℚ) :
    (sigmaFinalHdu sh0 vb x2 y2 sigdata).header.get? "CRVAL1" =
      some (.num (x2 * (1 + vb / speed_of_light))) := by
  unfold sigmaFinalHdu
  rw [get?_add_checksum _ _ (by decide) (by decide)]
  dsimp only
  rw [get?_set_ne _ _ _ _ (by decide), get?_set_self _ _ _ (by decide)]

theorem sigmaFinal_get?_cdelt (sh0 : Header) (vb x2 y2 : ℚ)
    (sigdata : List ℚ) :
    (sigmaFinalHdu sh0 vb x2 y2 sigdata).header.get? "CDELT1" =
      some (.num (y2 * (1 + vb / speed_of_light))) := by
  unfold sigmaFinalHdu
  rw [get?_add_checksum _ _ (by decide) (by decide)]
  dsimp only
  rw [get?_set_self _ _ _ (by decide)]

theorem sigmaFinal_get?_extname (sh0 : Header) (vb x2 y2 : ℚ)
    (sigdata : List ℚ) :
    (sigmaFinalHdu sh0 vb x2 y2 sigdata).header.get? "EXTNAME" =
      some (.str "input_sigma") := by
  unfold sigmaFinalHdu
  rw [get?_add_checksum _ _ (by decide) (by decide)]
  dsimp only
  rw [get?_set_ne _ _ _ _ (by decide), get?_set_ne _ _ _ _ (by decide),
    get?_mkSigmaHeader0_extname]

theorem sigmaFinal_valid (sh0 : Header) (vb x2 y2 : ℚ) (sigdata : List ℚ) :
    (sigmaFinalHdu sh0 vb x2 y2 sigdata).checksumValid := by
  unfold sigmaFinalHdu
  exact add_checksum_valid _

theorem get?_finishTemplate_ne (t1 : Header) (cn : ℕ × String) (k : String)
    (h1 : k ≠ "CCD") (h2 : k ≠ "WG6_VER") (h3 : k ≠ "WG6_HASH") :
    (finishTemplate t1 cn).get? k = t1.get? k := by
  unfold finishTemplate
  rw [get?_setComment, get?_setComment, get?_set_ne _ _ _ _ h3,
    get?_set_ne _ _ _ _ h2, get?_setComment, get?_set_ne _ _ _ _ h1]

theorem get?_finishTemplate_ccd (t1 : Header) (cn : ℕ × String) :
    (finishTemplate t1 cn).get? "CCD" = some (.num (cn.1 : ℚ)) := by
  unfold finishTemplate
  rw [get?_setComment, get?_setComment, get?_set_ne _ _ _ _ (by decide),
    get?_set_ne _ _ _ _ (by decide), get?_setComment,
    get?_set_self _ _ _ (by decide)]

theorem getComment?_finishTemplate_ccd (t1 : Header) (cn : ℕ × String) :
    (finishTemplate t1 cn).getComment? "CCD" = some (cn.2 ++ " camera") := by
  unfold finishTemplate
  rw [getComment?_setComment_ne _ _ _ _ (by decide),
    getComment?_setComment_ne _ _ _ _ (by decide),
    getComment?_set_ne _ _ _ _ (by decide),
    getComment?_set_ne _ _ _ _ (by decide)]
  exact getComment?_setComment_present _ _ _ (.num (cn.1 : ℚ))
    (get?_set_self t1 "CCD" (.num (cn.1 : ℚ)) (by decide))

theorem assembleTail_get01 (d : Bool) (F S : HDU) (p : HDUList)
    (h : assembleTail d [F, S] = .ok p) :
    p.get? 0 = some F ∧ p.get? 1 = some S := by
  obtain ⟨ht, hfal⟩ := assembleTail_ok d [F, S] p h
  cases d with
  | false =>
      rw [hfal rfl]
      exact ⟨rfl, rfl⟩
  | true =>
      obtain ⟨normed, hn, hpeq⟩ := ht rfl
      rw [hpeq]
      exact ⟨rfl, rfl⟩

theorem sigmaFinal_explicit_header (v1 v2 v3 v4 v5 : Value)
    (c1 c2 c3 c4 c5 : String) (vb x2 y2 : ℚ) (sd : List ℚ) :
    (sigmaFinalHdu [⟨"CRVAL1", v1, c1⟩, ⟨"CDELT1", v2, c2⟩, ⟨"CRPIX1", v3, c3⟩,
      ⟨"CTYPE1", v4, c4⟩, ⟨"CUNIT1", v5, c5⟩] vb x2 y2 sd).header =
      [⟨"CRVAL1", .num (x2 * (1 + vb / speed_of_light)), c1⟩,
       ⟨"CDELT1", .num (y2 * (1 + vb / speed_of_light)), c2⟩,
       ⟨"CRPIX1", v3, c3⟩, ⟨"CTYPE1", v4, c4⟩, ⟨"CUNIT1", v5, c5⟩,
       ⟨"EXTNAME", .str "input_sigma", "Flux sigma"⟩,
       ⟨"DATASUM", .str "0", ""⟩, ⟨"CHECKSUM", .str "0", ""⟩] := rfl

theorem fluxFinal_getComment?_crval (eh : Header) (vb vh x1 y1 : ℚ)
    (flux : List ℚ) (v : Value)
    (hpres : (mkFluxHeader0 eh).get? "CRVAL1" = some v) :
    (fluxFinalHdu eh vb vh x1 y1 flux).header.getComment? "CRVAL1" =
      (mkFluxHeader0 eh).getComment? "CRVAL1" := by
  unfold fluxFinalHdu
  rw [getComment?_add_checksum _ _ (by decide) (by decide)]
  dsimp only
  rw [getComment?_set_ne _ _ _ _ (by decide)]
  have hp2 : (mkFh1 (mkFluxHeader0 eh) vb vh).get? "CRVAL1" = some v := by
    rw [get?_mkFh1_ne _ _ _ _ (by decide) (by decide) (by decide)]
    exact hpres
  rw [getComment?_set_present _ _ _ _ hp2 (by decide)]
  rw [getComment?_mkFh1_ne _ _ _ _ (by decide) (by decide) (by decide)]

theorem fluxFinal_getComment?_cdelt (eh : Header) (vb vh x1 y1 : ℚ)
    (flux : List ℚ) (v : Value)
    (hpres : (mkFluxHeader0 eh).get? "CDELT1" = some v) :
    (fluxFinalHdu eh vb vh x1 y1 flux).header.getComment? "CDELT1" =
      (mkFluxHeader0 eh).getComment? "CDELT1" := by
  unfold fluxFinalHdu
  rw [getComment?_add_checksum _ _ (by decide) (by decide)]
  dsimp only
  have hp2 : ((mkFh1 (mkFluxHeader0 eh) vb vh).set "CRVAL1"
      (.num (x1 * (1 + vb / speed_of_light)))).get? "CDELT1" = some v := by
    rw [get?_set_ne _ _ _ _ (by decide),
      get?_mkFh1_ne _ _ _ _ (by decide) (by decide) (by decide)]
    exact hpres
  rw [getComment?_set_present _ _ _ _ hp2 (by decide)]
  rw [getComment?_set_ne _ _ _ _ (by decide)]
  rw [getComment?_mkFh1_ne _ _ _ _ (by decide) (by decide) (by decide)]

theorem get?_wave5_crval (w1 w2 w3 w4 w5 : Value) (c1 c2 c3 c4 c5 : String) :
    Header.get? [⟨"CRVAL1", w1, c1⟩, ⟨"CDELT1", w2, c2⟩, ⟨"CRPIX1", w3, c3⟩,
      ⟨"CTYPE1", w4, c4⟩, ⟨"CUNIT1", w5, c5⟩] "CRVAL1" = some w1 := rfl

theorem get?_wave5_cdelt (w1 w2 w3 w4 w5 : Value) (c1 c2 c3 c4 c5 : String) :
    Header.get? [⟨"CRVAL1", w1, c1⟩, ⟨"CDELT1", w2, c2⟩, ⟨"CRPIX1", w3, c3⟩,
      ⟨"CTYPE1", w4, c4⟩, ⟨"CUNIT1", w5, c5⟩] "CDELT1" = some w2 := rfl

theorem get?_wave5_crpix (w1 w2 w3 w4 w5 : Value) (c1 c2 c3 c4 c5 : String) :
    Header.get? [⟨"CRVAL1", w1, c1⟩, ⟨"CDELT1", w2, c2⟩, ⟨"CRPIX1", w3, c3⟩,
      ⟨"CTYPE1", w4, c4⟩, ⟨"CUNIT1", w5, c5⟩] "CRPIX1" = some w3 := rfl

theorem get?_wave5_ctype (w1 w2 w3 w4 w5 : Value) (c1 c2 c3 c4 c5 : String) :
    Header.get? [⟨"CRVAL1", w1, c1⟩, ⟨"CDELT1", w2, c2⟩, ⟨"CRPIX1", w3, c3⟩,
      ⟨"CTYPE1", w4, c4⟩, ⟨"CUNIT1", w5, c5⟩] "CTYPE1" = some w4 := rfl

theorem get?_wave5_cunit (w1 w2 w3 w4 w5 : Value) (c1 c2 c3 c4 c5 : String) :
    Header.get? [⟨"CRVAL1", w1, c1⟩, ⟨"CDELT1", w2, c2⟩, ⟨"CRPIX1", w3, c3⟩,
      ⟨"CTYPE1", w4, c4⟩, ⟨"CUNIT1", w5, c5⟩] "CUNIT1" = some w5 := rfl

theorem getComment?_wave5_crval (w1 w2 w3 w4 w5 : Value)
    (c1 c2 c3 c4 c5 : String) :
    Header.getComment? [⟨"CRVAL1", w1, c1⟩, ⟨"CDELT1", w2, c2⟩,
      ⟨"CRPIX1", w3, c3⟩, ⟨"CTYPE1", w4, c4⟩, ⟨"CUNIT1", w5, c5⟩] "CRVAL1" =
      some c1 := rfl

theorem getComment?_wave5_cdelt (w1 w2 w3 w4 w5 : Value)
    (c1 c2 c3 c4 c5 : String) :
    Header.getComment? [⟨"CRVAL1", w1, c1⟩, ⟨"CDELT1", w2, c2⟩,
      ⟨"CRPIX1", w3, c3⟩, ⟨"CTYPE1", w4, c4⟩, ⟨"CUNIT1", w5, c5⟩] "CDELT1" =
      some c2 := rfl

theorem getComment?_wave5_crpix (w1 w2 w3 w4 w5 : Value)
    (c1 c2 c3 c4 c5 : String) :
    Header.getComment? [⟨"CRVAL1", w1, c1⟩, ⟨"CDELT1", w2, c2⟩,
      ⟨"CRPIX1", w3, c3⟩, ⟨"CTYPE1", w4, c4⟩, ⟨"CUNIT1", w5, c5⟩] "CRPIX1" =
      some c3 := rfl

theorem getComment?_wave5_ctype (w1 w2 w3 w4 w5 : Value)
    (c1 c2 c3 c4 c5 : String) :
    Header.getComment? [⟨"CRVAL1", w1, c1⟩, ⟨"CDELT1", w2, c2⟩,
      ⟨"CRPIX1", w3, c3⟩, ⟨"CTYPE1", w4, c4⟩, ⟨"CUNIT1", w5, c5⟩] "CTYPE1" =
      some c4 := rfl

theorem getComment?_wave5_cunit (w1 w2 w3 w4 w5 : Value)
    (c1 c2 c3 c4 c5 : String) :
    Header.getComment? [⟨"CRVAL1", w1, c1⟩, ⟨"CDELT1", w2, c2⟩,
      ⟨"CRPIX1", w3, c3⟩, ⟨"CTYPE1", w4, c4⟩, ⟨"CUNIT1", w5, c5⟩] "CUNIT1" =
      some c5 := rfl

theorem sigmaFinal_getComment?_crval (sh0 : Header) (vb x2 y2 : ℚ)
    (sigdata : List ℚ) (v : Value) (hpres : sh0.get? "CRVAL1" = some v) :
    (sigmaFinalHdu sh0 vb x2 y2 sigdata).header.getComment? "CRVAL1" =
      sh0.getComment? "CRVAL1" := by
  unfold sigmaFinalHdu
  rw [getComment?_add_checksum _ _ (by decide) (by decide)]
  dsimp only
  rw [getComment?_set_ne _ _ _ _ (by decide)]
  have hp2 : (mkSigmaHeader0 sh0).get? "CRVAL1" = some v := by
    rw [get?_mkSigmaHeader0_ne _ _ (by decide)]
    exact hpres
  rw [getComment?_set_present _ _ _ _ hp2 (by decide)]
  rw [getComment?_mkSigmaHeader0_ne _ _ (by decide)]

theorem sigmaFinal_getComment?_cdelt (sh0 : Header) (vb x2 y2 : ℚ)
    (sigdata : List ℚ) (v : Value) (hpres : sh0.get? "CDELT1" = some v) :
    (sigmaFinalHdu sh0 vb x2 y2 sigdata).header.getComment? "CDELT1" =
      sh0.getComment? "CDELT1" := by
  unfold sigmaFinalHdu
  rw [getComment?_add_checksum _ _ (by decide) (by decide)]
  dsimp only
  have hp2 : ((mkSigmaHeader0 sh0).set "CRVAL1"
      (.num (x2 * (1 + vb / speed_of_light)))).get? "CDELT1" = some v := by
    rw [get?_set_ne _ _ _ _ (by decide), get?_mkSigmaHeader0_ne _ _ (by decide)]
    exact hpres
  rw [getComment?_set_present _ _ _ _ hp2 (by decide)]
  rw [getComment?_set_ne _ _ _ _ (by decide)]
  rw [getComment?_mkSigmaHeader0_ne _ _ (by decide)]

theorem sigmaFinal_getComment?_ne (sh0 : Header) (vb x2 y2 : ℚ)
    (sigdata : List ℚ) (k : String) (h1 : k ≠ "CRVAL1") (h2 : k ≠ "CDELT1")
    (h6 : k ≠ "EXTNAME") (h7 : k ≠ "DATASUM") (h8 : k ≠ "CHECKSUM") :
    (sigmaFinalHdu sh0 vb x2 y2 sigdata).header.getComment? k =
      sh0.getComment? k := by
  unfold sigmaFinalHdu
  rw [getComment?_add_checksum _ _ h7 h8]
  dsimp only
  rw [getComment?_set_ne _ _ _ _ h2, getComment?_set_ne _ _ _ _ h1,
    getComment?_mkSigmaHeader0_ne _ _ h6]

/-! ### The claims -/

/-- Claim C3, counterexample: the guard on the literal keywords list is true
(both RA and DEC are bare-string members), and the radian-to-degree branch
really executes: on a concrete run of the enrichment loop the RA value comes
out multiplied by 180/pi, which changes it. -/
theorem claim_C3_counterexample :
    (kwContains keywords "RA" && kwContains keywords "DEC") = true ∧
    ((enrichHeader [] 0 sampleRow0).toOption.getD []).get? "RA" =
      some (.num (np_pi * deg_per_rad)) ∧
    np_pi * deg_per_rad ≠ np_pi := by
  refine ⟨rfl, rfl, ?_⟩
  norm_num [np_pi, deg_per_rad]

/-- Claim C3 (amended): the membership guard evaluates to true, so the
radian-to-degree conversion branch runs for every object: the enriched header
always carries RA and DEC multiplied by 180/pi. -/
theorem claim_C3_amended (t : Header) (i : ℕ) (row : FibreRow) (eh : Header)
    (h : enrichHeader t i row = .ok eh) :
    (kwContains keywords "RA" && kwContains keywords "DEC") = true ∧
    eh.get? "RA" = some (.num (row.RA * deg_per_rad)) ∧
    eh.get? "DEC" = some (.num (row.DEC * deg_per_rad)) := by
  obtain ⟨hra, hdec, -, -, -, -, -, -, -⟩ := enrichHeader_ok_parts t i row eh h
  exact ⟨rfl, hra, hdec⟩

theorem claim_C3_witness :
    enrichHeader [] 0 sampleRow0 =
      .ok ((enrichHeader [] 0 sampleRow0).toOption.getD []) ∧
    ((kwContains keywords "RA" && kwContains keywords "DEC") = true ∧
      ((enrichHeader [] 0 sampleRow0).toOption.getD []).get? "RA" =
        some (.num (sampleRow0.RA * deg_per_rad)) ∧
      ((enrichHeader [] 0 sampleRow0).toOption.getD []).get? "DEC" =
        some (.num (sampleRow0.DEC * deg_per_rad))) :=
  ⟨rfl, claim_C3_amended [] 0 sampleRow0 _ rfl⟩

/-- Claim C6, counterexample: an input whose ORIGIN is not AAO but which also
lacks the VARIANCE extension fails with MissingExtensionError, not
OriginMismatchError, because read_2dfdr_extensions runs before
verify_hermes_origin. -/
theorem claim_C6_counterexample :
    (badImage.get? 0).map (fun hh => hh.header.get? "ORIGIN") =
      some (some (.str "ESO")) ∧
    pyStrip "ESO" ≠ "AAO" ∧
    (from_2dfdr sampleExternals badImage true).1 =
      .error (.missingExtension "VARIANCE") ∧
    PipelineError.missingExtension "VARIANCE" ≠ PipelineError.originMismatch := by
  refine ⟨rfl, ?_, rfl, ?_⟩ <;> decide

/-- Claim C6 (amended): when the required extensions are present and the
primary HDU carries string-valued ORIGIN and INSTRUME cards, a stripped
ORIGIN other than AAO or a stripped INSTRUME other than HERMES-2dF makes
from_2dfdr fail with OriginMismatchError, for every choice of externals and
configuration: no object is processed and no product is returned. -/
theorem claim_C6_amended (im : Image) (exts : ExtIndices) (hdu0 : InputHDU)
    (origin instrume : String)
    (hre : read_2dfdr_extensions im = .ok exts)
    (h0 : im.get? 0 = some hdu0)
    (ho : hdu0.header.get? "ORIGIN" = some (.str origin))
    (hi : hdu0.header.get? "INSTRUME" = some (.str instrume))
    (hbad : pyStrip origin ≠ "AAO" ∨ pyStrip instrume ≠ "HERMES-2dF") :
    ∀ e d, (from_2dfdr e im d).1 = .error .originMismatch := by
  intro e d
  rw [from_2dfdr_fst]
  have hg : getHDU im 0 = .ok hdu0 := by unfold getHDU; rw [h0]
  have hos : getStrVal hdu0.header "ORIGIN" = .ok origin := by
    unfold getStrVal
    rw [ho]
  have his : getStrVal hdu0.header "INSTRUME" = .ok instrume := by
    unfold getStrVal
    rw [hi]
  have hver : verify_hermes_origin im = .error .originMismatch := by
    unfold verify_hermes_origin
    rw [hg]
    simp only [bind_ok_eval]
    rw [hos]
    simp only [bind_ok_eval]
    by_cases hA : pyStrip origin = "AAO"
    · rw [if_pos hA]
      have hbadi : pyStrip instrume ≠ "HERMES-2dF" :=
        hbad.resolve_left (fun hh => hh hA)
      simp only [pure_eval, bind_ok_eval]
      rw [his]
      simp only [bind_ok_eval]
      rw [if_neg hbadi]
    · rw [if_neg hA]
      simp only [bind_error_eval]
  unfold from_2dfdr_body
  rw [hre]
  simp only [bind_ok_eval]
  rw [hver]
  simp only [bind_error_eval]

theorem claim_C6_witness :
    read_2dfdr_extensions wrongInstrumentImage = .ok ⟨0, 1, 2⟩ ∧
    pyStrip "UCLES" ≠ "HERMES-2dF" ∧
    (from_2dfdr sampleExternals wrongInstrumentImage true).1 =
      .error .originMismatch :=
  ⟨rfl, by decide,
    claim_C6_amended wrongInstrumentImage ⟨0, 1, 2⟩
      ((wrongInstrumentImage.get? 0).getD ⟨[], .empty⟩) "AAO" "UCLES" rfl rfl
      rfl rfl (Or.inr (by decide)) sampleExternals true⟩

/-- Claim C7, counterexample: when the motion service fails for an object,
from_2dfdr propagates the error and returns without having closed the
exposure (the closed flag of the model is false), so the container is not
released on every path. -/
theorem claim_C7_counterexample :
    (from_2dfdr failingExternals sampleImage true).1 =
      .error .motionFailure ∧
    (from_2dfdr failingExternals sampleImage true).2 = false :=
  ⟨rfl, rfl⟩

/-- Claim C7 (amended): the exposure is closed before returning exactly on
the successful paths; an error path propagates the exception without running
image.close(). -/
theorem claim_C7_amended (e : Externals) (im : Image) (d : Bool) :
    (from_2dfdr e im d).2 = true ↔ ∃ ps, (from_2dfdr e im d).1 = .ok ps := by
  unfold from_2dfdr
  cases hb : from_2dfdr_body e im d with
  | ok s => simp
  | error err => simp

/-- Claim C8: the channel token extracted from the SPLYTEMP comment maps to
the CCD header field through the fixed dictionary BLUE to 1, GREEN to 2, RED
to 3, IR to 4: get_ccd_number returns the mapped number, and on every
successful run the CCD card of each output input_spectrum header holds that
mapped number, with a comment naming the camera; any token outside the
dictionary makes get_ccd_number, and hence template building in from_2dfdr,
fail with UnknownChannelError. -/
theorem claim_C8 (im : Image) (hdu0 : InputHDU) (com : String)
    (h0 : im.get? 0 = some hdu0)
    (hc : hdu0.header.getComment? "SPLYTEMP" = some com) :
    (splyToken com = "BLUE" → get_ccd_number im = .ok (1, splyToken com)) ∧
    (splyToken com = "GREEN" → get_ccd_number im = .ok (2, splyToken com)) ∧
    (splyToken com = "RED" → get_ccd_number im = .ok (3, splyToken com)) ∧
    (splyToken com = "IR" → get_ccd_number im = .ok (4, splyToken com)) ∧
    (∀ e d ps k p fluxHdu n,
      (from_2dfdr e im d).1 = .ok ps →
      ps.get? k = some p →
      p.get? 0 = some fluxHdu →
      ccdNameMap (splyToken com) = some n →
      fluxHdu.header.get? "CCD" = some (.num (n : ℚ)) ∧
      fluxHdu.header.getComment? "CCD" = some (splyToken com ++ " camera")) ∧
    (ccdNameMap (splyToken com) = none →
      get_ccd_number im = .error .unknownChannel) ∧
    (∀ e d exts t1,
      read_2dfdr_extensions im = .ok exts →
      verify_hermes_origin im = .ok () →
      hdu0.header.delKeys axis2Keys = .ok t1 →
      ccdNameMap (splyToken com) = none →
      (from_2dfdr e im d).1 = .error .unknownChannel) := by
  have hg : getHDU im 0 = .ok hdu0 := by unfold getHDU; rw [h0]
  have hgc : get_ccd_number im =
      (match ccdNameMap (splyToken com) with
        | some n => .ok (n, splyToken com)
        | none => .error .unknownChannel) := by
    unfold get_ccd_number
    rw [hg]
    simp only [bind_ok_eval]
    rw [hc]
    simp only [bind_ok_eval, pure_eval]
  refine ⟨?_, ?_, ?_, ?_, ?_, ?_, ?_⟩
  · intro hB; rw [hgc, hB]; rfl
  · intro hB; rw [hgc, hB]; rfl
  · intro hB; rw [hgc, hB]; rfl
  · intro hB; rw [hgc, hB]; rfl
  · intro e d ps k p fluxHdu n hrun hp hf hn
    obtain ⟨exts, hdu0b, t1, cn, rows, i, row, eh, sh0, vb, vh, x1, y1, x2, y2,
      flux, variance, hre, hd0e, hghdu, hdel, hccd, hrows, hi, hIm1, hIm2, hTR,
      hEnr, hCopy, hMot, hx1, hy1, hx2, hy2, hAsm⟩ :=
      run_object_spec e im d ps k p hrun hp
    have hok : get_ccd_number im = .ok (n, splyToken com) := by rw [hgc, hn]
    rw [hok] at hccd
    injection hccd with hcn
    subst hcn
    obtain ⟨hF, hS⟩ := assembleTail_get01 d _ _ p hAsm
    rw [hf] at hF
    injection hF with hFe
    subst hFe
    obtain ⟨-, -, -, -, -, -, -, -, hunt⟩ := enrichHeader_ok_parts _ _ _ _ hEnr
    obtain ⟨huv, huc⟩ := hunt "CCD" (by decide)
    constructor
    · rw [fluxFinal_get?_ne _ _ _ _ _ _ "CCD" (by decide) (by decide) (by decide)
        (by decide) (by decide) (by decide) (by decide) (by decide), huv,
        get?_finishTemplate_ccd]
    · rw [fluxFinal_getComment?_ne _ _ _ _ _ _ "CCD" (by decide) (by decide)
        (by decide) (by decide) (by decide) (by decide) (by decide) (by decide),
        huc, getComment?_finishTemplate_ccd]
  · intro hn; rw [hgc, hn]
  · intro e d exts t1 hre hver hdel hn
    have hcerr : get_ccd_number im = .error .unknownChannel := by
      rw [hgc, hn]
    rw [from_2dfdr_fst]
    unfold from_2dfdr_body
    rw [hre]
    simp only [bind_ok_eval]
    rw [hver]
    simp only [bind_ok_eval]
    rw [read_ok_data im exts hre, hg]
    simp only [bind_ok_eval]
    rw [hdel]
    simp only [bind_ok_eval]
    rw [hcerr]
    simp only [bind_error_eval]

theorem claim_C8_witness :
    sampleImage.get? 0 = some sampleHDU0 ∧
    sampleHDU0.header.getComment? "SPLYTEMP" =
      some "GREEN camera temperature" ∧
    splyToken "GREEN camera temperature" = "GREEN" ∧
    ccdNameMap "GREEN" = some 2 ∧
    sampleRun = .ok sampleProducts ∧
    sampleProducts.get? 0 = some sampleProduct0 ∧
    sampleProduct0.get? 0 = some sampleFlux0 ∧
    get_ccd_number sampleImage =
      .ok (2, splyToken "GREEN camera temperature") ∧
    sampleFlux0.header.get? "CCD" = some (.num 2) ∧
    sampleFlux0.header.getComment? "CCD" = some "GREEN camera" :=
  ⟨rfl, rfl, rfl, rfl, rfl, rfl, rfl,
    (claim_C8 sampleImage sampleHDU0 "GREEN camera temperature" rfl rfl).2.1 rfl,
    (claim_C8 sampleImage sampleHDU0 "GREEN camera temperature" rfl rfl).2.2.2.2.1
      sampleExternals true sampleProducts 0 sampleProduct0 sampleFlux0 2
      rfl rfl rfl rfl⟩

/-- Claim C2: catalog RA and DEC are multiplied by 180/pi (the exact rational
model of the float 180/np.pi) when copied into the per-object header, and a
catalog RA equal to pi radians comes out as exactly 180 degrees. -/
theorem claim_C2 (e : Externals) (im : Image) (d : Bool) (ps : List HDUList)
    (exts : ExtIndices) (rows : List FibreRow) (k i : ℕ) (row : FibreRow)
    (p : HDUList) (fluxHdu : HDU)
    (hrun : (from_2dfdr e im d).1 = .ok ps)
    (hext : read_2dfdr_extensions im = .ok exts)
    (hrows : getTable im exts.fibres = .ok rows)
    (hidx : (programIndices rows).get? k = some i)
    (hrow : rows.get? i = some row)
    (hp : ps.get? k = some p)
    (hf : p.get? 0 = some fluxHdu) :
    fluxHdu.header.get? "RA" = some (.num (row.RA * deg_per_rad)) ∧
    fluxHdu.header.get? "DEC" = some (.num (row.DEC * deg_per_rad)) ∧
    (row.RA = np_pi → fluxHdu.header.get? "RA" = some (.num 180)) := by
  obtain ⟨exts2, hdu0, t1, cn, rows2, i2, row2, eh, sh0, vb, vh, x1, y1, x2,
    y2, flux, variance, hre, hd0, hghdu, hdel, hccd, hrows2, hi2, hIm1, hIm2,
    hTR, hEnr, hCopy, hMot, hx1, hy1, hx2, hy2, hAsm⟩ :=
    run_object_spec e im d ps k p hrun hp
  rw [hext] at hre
  injection hre with he
  subst he
  rw [hrows] at hrows2
  injection hrows2 with he2
  subst he2
  rw [hidx] at hi2
  injection hi2 with he3
  subst he3
  have hTRu : getTableRow im exts.fibres i = .ok row := by
    unfold getTableRow
    rw [hrows]
    simp only [bind_ok_eval]
    rw [hrow]
    rfl
  rw [hTRu] at hTR
  injection hTR with he4
  subst he4
  obtain ⟨hg0, hg1⟩ := assembleTail_get01 d _ _ p hAsm
  rw [hf] at hg0
  injection hg0 with hfe
  subst hfe
  obtain ⟨hra, hdec, -, -, -, -, -, -, -⟩ := enrichHeader_ok_parts _ _ _ _ hEnr
  have hraF : (fluxFinalHdu eh vb vh x1 y1 flux).header.get? "RA" =
      some (.num (row.RA * deg_per_rad)) := by
    rw [fluxFinal_get?_ne _ _ _ _ _ _ _ (by decide) (by decide) (by decide)
      (by decide) (by decide) (by decide) (by decide) (by decide)]
    exact hra
  refine ⟨hraF, ?_, ?_⟩
  · rw [fluxFinal_get?_ne _ _ _ _ _ _ _ (by decide) (by decide) (by decide)
      (by decide) (by decide) (by decide) (by decide) (by decide)]
    exact hdec
  · intro hpi
    rw [hraF, hpi]
    have h180 : np_pi * deg_per_rad = 180 := by norm_num [np_pi, deg_per_rad]
    rw [h180]

theorem claim_C2_witness :
    sampleRun = .ok sampleProducts ∧
    read_2dfdr_extensions sampleImage = .ok ⟨0, 1, 2⟩ ∧
    getTable sampleImage 2 = .ok [sampleRow0, sampleRow1, sampleRow2] ∧
    (programIndices [sampleRow0, sampleRow1, sampleRow2]).get? 0 = some 0 ∧
    [sampleRow0, sampleRow1, sampleRow2].get? 0 = some sampleRow0 ∧
    sampleProducts.get? 0 = some sampleProduct0 ∧
    sampleProduct0.get? 0 = some sampleFlux0 ∧
    (sampleFlux0.header.get? "RA" =
        some (.num (sampleRow0.RA * deg_per_rad)) ∧
      sampleFlux0.header.get? "DEC" =
        some (.num (sampleRow0.DEC * deg_per_rad)) ∧
      (sampleRow0.RA = np_pi →
        sampleFlux0.header.get? "RA" = some (.num 180))) :=
  ⟨rfl, rfl, rfl, rfl, rfl, rfl, rfl,
    claim_C2 sampleExternals sampleImage true sampleProducts ⟨0, 1, 2⟩
      [sampleRow0, sampleRow1, sampleRow2] 0 0 sampleRow0 sampleProduct0
      sampleFlux0 rfl rfl rfl rfl rfl rfl rfl⟩

/-- Claim C4: a successful run yields one product per program-type fibre, in
ascending fibre-index order, and each product carries FIBRE = index + 1. -/
theorem claim_C4 (e : Externals) (im : Image) (d : Bool) (ps : List HDUList)
    (exts : ExtIndices) (rows : List FibreRow)
    (hrun : (from_2dfdr e im d).1 = .ok ps)
    (hext : read_2dfdr_extensions im = .ok exts)
    (hrows : getTable im exts.fibres = .ok rows) :
    ps.length = rows.countP (fun r => r.TYPE == "P") ∧
    List.Pairwise (fun a b => a < b) (programIndices rows) ∧
    ∀ k i p fluxHdu, (programIndices rows).get? k = some i →
      ps.get? k = some p → p.get? 0 = some fluxHdu →
      fluxHdu.header.get? "FIBRE" = some (.num ((i : ℚ) + 1)) := by
  rw [from_2dfdr_fst] at hrun
  obtain ⟨exts2, hdu0, t1, cn, rows2, hre, hd0, hver, hghdu, hdel, hccd,
    hrows2, hloop⟩ := from_2dfdr_body_ok e im d ps hrun
  rw [hext] at hre
  injection hre with he
  subst he
  rw [hrows] at hrows2
  injection hrows2 with he2
  subst he2
  obtain ⟨hlen, hcorr⟩ := extractLoop_ok _ _ _ _ _ _ _ hloop
  refine ⟨?_, programIndices_pairwise rows, ?_⟩
  · rw [hlen, programIndices_length]
  · intro k i p fluxHdu hik hpk hfk
    obtain ⟨p2, hp2, hproc⟩ := hcorr k i hik
    rw [hpk] at hp2
    injection hp2 with hpe
    subst hpe
    obtain ⟨flux, variance, row, eh, sh0, vb, vh, x1, y1, x2, y2, hIm1, hIm2,
      hTR, hEnr, hCopy, hMot, hx1, hy1, hx2, hy2, hAsm⟩ :=
      processObject_ok _ _ _ _ _ _ _ hproc
    obtain ⟨hg0, hg1⟩ := assembleTail_get01 d _ _ p hAsm
    rw [hfk] at hg0
    injection hg0 with hfe
    subst hfe
    obtain ⟨-, -, hfib, -, -, -, -, -, -⟩ := enrichHeader_ok_parts _ _ _ _ hEnr
    rw [fluxFinal_get?_ne _ _ _ _ _ _ _ (by decide) (by decide) (by decide)
      (by decide) (by decide) (by decide) (by decide) (by decide)]
    exact hfib

theorem claim_C4_witness :
    sampleRun = .ok sampleProducts ∧
    read_2dfdr_extensions sampleImage = .ok ⟨0, 1, 2⟩ ∧
    getTable sampleImage 2 = .ok [sampleRow0, sampleRow1, sampleRow2] ∧
    (sampleProducts.length =
        [sampleRow0, sampleRow1, sampleRow2].countP
          (fun r => r.TYPE == "P") ∧
      List.Pairwise (fun a b => a < b)
        (programIndices [sampleRow0, sampleRow1, sampleRow2]) ∧
      ∀ k i p fluxHdu,
        (programIndices [sampleRow0, sampleRow1, sampleRow2]).get? k =
          some i →
        sampleProducts.get? k = some p → p.get? 0 = some fluxHdu →
        fluxHdu.header.get? "FIBRE" = some (.num ((i : ℚ) + 1))) :=
  ⟨rfl, rfl, rfl,
    claim_C4 sampleExternals sampleImage true sampleProducts ⟨0, 1, 2⟩
      [sampleRow0, sampleRow1, sampleRow2] rfl rfl rfl⟩

/-- Claim C1: on both the flux and sigma headers of every located program
object, CRVAL1 and CDELT1 equal the primary-header values multiplied exactly
once by 1 + v_bary divided by the speed of light, where (v_bary, v_helio) is
the motion-service result; v_helio is stored in the flux header but does not
enter the rescaling factor. -/
theorem claim_C1 (e : Externals) (im : Image) (d : Bool) (ps : List HDUList)
    (k : ℕ) (p : HDUList) (hdu0 : InputHDU) (x0 d0 : ℚ)
    (fluxHdu sigmaHdu : HDU)
    (hrun : (from_2dfdr e im d).1 = .ok ps)
    (hp : ps.get? k = some p)
    (h0 : im.get? 0 = some hdu0)
    (hx : hdu0.header.get? "CRVAL1" = some (.num x0))
    (hd : hdu0.header.get? "CDELT1" = some (.num d0))
    (hf : p.get? 0 = some fluxHdu)
    (hs : p.get? 1 = some sigmaHdu) :
    ∃ mh vb vh, e.motionFromHeader mh = .ok (vb, vh) ∧
      fluxHdu.header.get? "V_BARY" = some (.num vb) ∧
      fluxHdu.header.get? "V_HELIO" = some (.num vh) ∧
      fluxHdu.header.get? "CRVAL1" =
        some (.num (x0 * (1 + vb / speed_of_light))) ∧
      fluxHdu.header.get? "CDELT1" =
        some (.num (d0 * (1 + vb / speed_of_light))) ∧
      sigmaHdu.header.get? "CRVAL1" =
        some (.num (x0 * (1 + vb / speed_of_light))) ∧
      sigmaHdu.header.get? "CDELT1" =
        some (.num (d0 * (1 + vb / speed_of_light))) := by
  obtain ⟨exts, hdu0b, t1, cn, rows, i, row, eh, sh0, vb, vh, x1, y1, x2, y2,
    flux, variance, hre, hd0e, hghdu, hdel, hccd, hrows, hi, hIm1, hIm2, hTR,
    hEnr, hCopy, hMot, hx1, hy1, hx2, hy2, hAsm⟩ :=
    run_object_spec e im d ps k p hrun hp
  have hg0 : getHDU im 0 = .ok hdu0 := by unfold getHDU; rw [h0]
  rw [hd0e, hg0] at hghdu
  injection hghdu with hge
  subst hge
  have htx : (finishTemplate t1 cn).get? "CRVAL1" = some (.num x0) := by
    rw [get?_finishTemplate_ne _ _ _ (by decide) (by decide) (by decide),
      delKeys_ok_get? axis2Keys hdu0.header t1 "CRVAL1" (by decide) hdel]
    exact hx
  have htd : (finishTemplate t1 cn).get? "CDELT1" = some (.num d0) := by
    rw [get?_finishTemplate_ne _ _ _ (by decide) (by decide) (by decide),
      delKeys_ok_get? axis2Keys hdu0.header t1 "CDELT1" (by decide) hdel]
    exact hd
  obtain ⟨-, -, -, -, -, -, -, -, hunt⟩ := enrichHeader_ok_parts _ _ _ _ hEnr
  have hehx : eh.get? "CRVAL1" = some (.num x0) := by
    rw [(hunt "CRVAL1" (by decide)).1]
    exact htx
  have hehd : eh.get? "CDELT1" = some (.num d0) := by
    rw [(hunt "CDELT1" (by decide)).1]
    exact htd
  rw [get?_mkFh1_ne _ _ _ _ (by decide) (by decide) (by decide),
    get?_mkFluxHeader0_ne _ _ (by decide), hehx] at hx1
  injection hx1 with hv1e
  injection hv1e with hx1e
  subst hx1e
  rw [get?_set_ne _ _ _ _ (by decide),
    get?_mkFh1_ne _ _ _ _ (by decide) (by decide) (by decide),
    get?_mkFluxHeader0_ne _ _ (by decide), hehd] at hy1
  injection hy1 with hv2e
  injection hv2e with hy1e
  subst hy1e
  obtain ⟨v1, v2, v3, v4, v5, hv1, hv2, hv3, hv4, hv5, hsh0⟩ :=
    copyWavelengthKeys_ok _ _ hCopy
  subst hsh0
  rw [get?_mkFluxHeader0_ne _ _ (by decide), hehx] at hv1
  injection hv1 with hv1e2
  subst hv1e2
  rw [get?_mkFluxHeader0_ne _ _ (by decide), hehd] at hv2
  injection hv2 with hv2e2
  subst hv2e2
  rw [get?_mkSigmaHeader0_ne _ _ (by decide), get?_wave5_crval] at hx2
  injection hx2 with hx2e
  injection hx2e with hx2e2
  subst hx2e2
  rw [get?_set_ne _ _ _ _ (by decide), get?_mkSigmaHeader0_ne _ _ (by decide),
    get?_wave5_cdelt] at hy2
  injection hy2 with hy2e
  injection hy2e with hy2e2
  subst hy2e2
  obtain ⟨hg0p, hg1p⟩ := assembleTail_get01 d _ _ p hAsm
  rw [hf] at hg0p
  injection hg0p with hfe
  subst hfe
  rw [hs] at hg1p
  injection hg1p with hse
  subst hse
  exact ⟨mkFluxHeader0 eh, vb, vh, hMot,
    fluxFinal_get?_vbary _ _ _ _ _ _,
    fluxFinal_get?_vhelio _ _ _ _ _ _,
    fluxFinal_get?_crval _ _ _ _ _ _,
    fluxFinal_get?_cdelt _ _ _ _ _ _,
    sigmaFinal_get?_crval _ _ _ _ _,
    sigmaFinal_get?_cdelt _ _ _ _ _⟩

theorem claim_C1_witness :
    sampleRun = .ok sampleProducts ∧
    sampleProducts.get? 0 = some sampleProduct0 ∧
    sampleImage.get? 0 = some sampleHDU0 ∧
    sampleHDU0.header.get? "CRVAL1" = some (.num 4714) ∧
    sampleHDU0.header.get? "CDELT1" = some (.num (1 / 20)) ∧
    sampleProduct0.get? 0 = some sampleFlux0 ∧
    sampleProduct0.get? 1 = some sampleSigma0 ∧
    (∃ mh vb vh, sampleExternals.motionFromHeader mh = .ok (vb, vh) ∧
      sampleFlux0.header.get? "V_BARY" = some (.num vb) ∧
      sampleFlux0.header.get? "V_HELIO" = some (.num vh) ∧
      sampleFlux0.header.get? "CRVAL1" =
        some (.num (4714 * (1 + vb / speed_of_light))) ∧
      sampleFlux0.header.get? "CDELT1" =
        some (.num (1 / 20 * (1 + vb / speed_of_light))) ∧
      sampleSigma0.header.get? "CRVAL1" =
        some (.num (4714 * (1 + vb / speed_of_light))) ∧
      sampleSigma0.header.get? "CDELT1" =
        some (.num (1 / 20 * (1 + vb / speed_of_light)))) :=
  ⟨rfl, rfl, rfl, rfl, rfl, rfl, rfl,
    claim_C1 sampleExternals sampleImage true sampleProducts 0 sampleProduct0
      sampleHDU0 4714 (1 / 20) sampleFlux0 sampleSigma0 rfl rfl rfl rfl rfl
      rfl rfl⟩

/-- Claim C5: the five wavelength-axis fields and their comments on the
input_sigma extension equal those on the input_spectrum extension of the same
object, in the finished products, i.e. after the Doppler correction. -/
theorem claim_C5 (e : Externals) (im : Image) (d : Bool) (ps : List HDUList)
    (k : ℕ) (p : HDUList) (fluxHdu sigmaHdu : HDU)
    (hrun : (from_2dfdr e im d).1 = .ok ps)
    (hp : ps.get? k = some p)
    (hf : p.get? 0 = some fluxHdu)
    (hs : p.get? 1 = some sigmaHdu) :
    ∀ key ∈ wavelengthKeys,
      sigmaHdu.header.get? key = fluxHdu.header.get? key ∧
      sigmaHdu.header.getComment? key = fluxHdu.header.getComment? key := by
  obtain ⟨exts, hdu0b, t1, cn, rows, i, row, eh, sh0, vb, vh, x1, y1, x2, y2,
    flux, variance, hre, hd0e, hghdu, hdel, hccd, hrows, hi, hIm1, hIm2, hTR,
    hEnr, hCopy, hMot, hx1, hy1, hx2, hy2, hAsm⟩ :=
    run_object_spec e im d ps k p hrun hp
  obtain ⟨v1, v2, v3, v4, v5, hv1, hv2, hv3, hv4, hv5, hsh0⟩ :=
    copyWavelengthKeys_ok _ _ hCopy
  subst hsh0
  rw [get?_mkFh1_ne _ _ _ _ (by decide) (by decide) (by decide), hv1] at hx1
  injection hx1 with hv1e
  subst hv1e
  rw [get?_mkSigmaHeader0_ne _ _ (by decide), get?_wave5_crval] at hx2
  injection hx2 with hx2e
  injection hx2e with hx2e2
  subst hx2e2
  rw [get?_set_ne _ _ _ _ (by decide),
    get?_mkFh1_ne _ _ _ _ (by decide) (by decide) (by decide), hv2] at hy1
  injection hy1 with hv2e
  subst hv2e
  rw [get?_set_ne _ _ _ _ (by decide), get?_mkSigmaHeader0_ne _ _ (by decide),
    get?_wave5_cdelt] at hy2
  injection hy2 with hy2e
  injection hy2e with hy2e2
  subst hy2e2
  obtain ⟨hg0p, hg1p⟩ := assembleTail_get01 d _ _ p hAsm
  rw [hf] at hg0p
  injection hg0p with hfe
  subst hfe
  rw [hs] at hg1p
  injection hg1p with hse
  subst hse
  intro key hkey
  simp only [wavelengthKeys, List.mem_cons, List.not_mem_nil, or_false] at hkey
  rcases hkey with rfl | rfl | rfl | rfl | rfl
  · constructor
    · rw [sigmaFinal_get?_crval, fluxFinal_get?_crval]
    · rw [sigmaFinal_getComment?_crval _ _ _ _ _ _ (get?_wave5_crval _ _ _ _ _
          _ _ _ _ _),
        getComment?_wave5_crval,
        fluxFinal_getComment?_crval _ _ _ _ _ _ _ hv1]
      exact (getComment?_of_get? _ _ _ hv1).symm
  · constructor
    · rw [sigmaFinal_get?_cdelt, fluxFinal_get?_cdelt]
    · rw [sigmaFinal_getComment?_cdelt _ _ _ _ _ _ (get?_wave5_cdelt _ _ _ _ _
          _ _ _ _ _),
        getComment?_wave5_cdelt,
        fluxFinal_getComment?_cdelt _ _ _ _ _ _ _ hv2]
      exact (getComment?_of_get? _ _ _ hv2).symm
  · constructor
    · rw [sigmaFinal_get?_ne _ _ _ _ _ _ (by decide) (by decide) (by decide)
          (by decide) (by decide), get?_wave5_crpix,
        fluxFinal_get?_ne _ _ _ _ _ _ _ (by decide) (by decide) (by decide)
          (by decide) (by decide) (by decide) (by decide) (by decide),
        ← get?_mkFluxHeader0_ne eh "CRPIX1" (by decide)]
      exact hv3.symm
    · rw [sigmaFinal_getComment?_ne _ _ _ _ _ _ (by decide) (by decide)
          (by decide) (by decide) (by decide), getComment?_wave5_crpix,
        fluxFinal_getComment?_ne _ _ _ _ _ _ _ (by decide) (by decide)
          (by decide) (by decide) (by decide) (by decide) (by decide)
          (by decide),
        ← getComment?_mkFluxHeader0_ne eh "CRPIX1" (by decide)]
      exact (getComment?_of_get? _ _ _ hv3).symm
  · constructor
    · rw [sigmaFinal_get?_ne _ _ _ _ _ _ (by decide) (by decide) (by decide)
          (by decide) (by decide), get?_wave5_ctype,
        fluxFinal_get?_ne _ _ _ _ _ _ _ (by decide) (by decide) (by decide)
          (by decide) (by decide) (by decide) (by decide) (by decide),
        ← get?_mkFluxHeader0_ne eh "CTYPE1" (by decide)]
      exact hv4.symm
    · rw [sigmaFinal_getComment?_ne _ _ _ _ _ _ (by decide) (by decide)
          (by decide) (by decide) (by decide), getComment?_wave5_ctype,
        fluxFinal_getComment?_ne _ _ _ _ _ _ _ (by decide) (by decide)
          (by decide) (by decide) (by decide) (by decide) (by decide)
          (by decide),
        ← getComment?_mkFluxHeader0_ne eh "CTYPE1" (by decide)]
      exact (getComment?_of_get? _ _ _ hv4).symm
  · constructor
    · rw [sigmaFinal_get?_ne _ _ _ _ _ _ (by decide) (by decide) (by decide)
          (by decide) (by decide), get?_wave5_cunit,
        fluxFinal_get?_ne _ _ _ _ _ _ _ (by decide) (by decide) (by decide)
          (by decide) (by decide) (by decide) (by decide) (by decide),
        ← get?_mkFluxHeader0_ne eh "CUNIT1" (by decide)]
      exact hv5.symm
    · rw [sigmaFinal_getComment?_ne _ _ _ _ _ _ (by decide) (by decide)
          (by decide) (by decide) (by decide), getComment?_wave5_cunit,
        fluxFinal_getComment?_ne _ _ _ _ _ _ _ (by decide) (by decide)
          (by decide) (by decide) (by decide) (by decide) (by decide)
          (by decide),
        ← getComment?_mkFluxHeader0_ne eh "CUNIT1" (by decide)]
      exact (getComment?_of_get? _ _ _ hv5).symm

theorem claim_C5_witness :
    sampleRun = .ok sampleProducts ∧
    sampleProducts.get? 0 = some sampleProduct0 ∧
    sampleProduct0.get? 0 = some sampleFlux0 ∧
    sampleProduct0.get? 1 = some sampleSigma0 ∧
    ∀ key ∈ wavelengthKeys,
      sampleSigma0.header.get? key = sampleFlux0.header.get? key ∧
      sampleSigma0.header.getComment? key =
        sampleFlux0.header.getComment? key :=
  ⟨rfl, rfl, rfl, rfl,
    claim_C5 sampleExternals sampleImage true sampleProducts 0 sampleProduct0
      sampleFlux0 sampleSigma0 rfl rfl rfl rfl⟩

/-- Claim C9: with the placeholder switch on, every product is exactly the
five extensions input_spectrum, input_sigma, normalised_spectrum,
normalised_sigma, CCF in that order, each sealed by a checksum taken after
its last content change; with the switch off, exactly the two input
extensions. -/
theorem claim_C9 (e : Externals) (im : Image) (d : Bool) (ps : List HDUList)
    (k : ℕ) (p : HDUList)
    (hrun : (from_2dfdr e im d).1 = .ok ps)
    (hp : ps.get? k = some p) :
    (d = true → p.map (fun hdu => hdu.header.get? "EXTNAME") = fullExtnames ∧
      ∀ hdu ∈ p, hdu.checksumValid) ∧
    (d = false → p.map (fun hdu => hdu.header.get? "EXTNAME") =
      basicExtnames) := by
  obtain ⟨exts, hdu0b, t1, cn, rows, i, row, eh, sh0, vb, vh, x1, y1, x2, y2,
    flux, variance, hre, hd0e, hghdu, hdel, hccd, hrows, hi, hIm1, hIm2, hTR,
    hEnr, hCopy, hMot, hx1, hy1, hx2, hy2, hAsm⟩ :=
    run_object_spec e im d ps k p hrun hp
  obtain ⟨ht, hfal⟩ := assembleTail_ok d _ p hAsm
  constructor
  · intro hd
    subst hd
    obtain ⟨normed, hn, hpeq⟩ := ht rfl
    obtain ⟨n1, n2, hns, hn1e, hn1v, hn2e, hn2v⟩ := dummy_norm_ok _ _ hn
    subst hns
    subst hpeq
    constructor
    · simp only [List.map_append, List.map_cons, List.map_nil]
      rw [fluxFinal_get?_extname, sigmaFinal_get?_extname, hn1e, hn2e,
        dummy_ccf_extname]
      rfl
    · intro hdu hmem
      simp only [List.mem_append, List.mem_cons, List.not_mem_nil,
        or_false] at hmem
      rcases hmem with ((rfl | rfl) | (rfl | rfl)) | rfl
      · exact fluxFinal_valid _ _ _ _ _ _
      · exact sigmaFinal_valid _ _ _ _ _
      · exact hn1v
      · exact hn2v
      · exact dummy_ccf_valid _
  · intro hd
    subst hd
    rw [hfal rfl]
    simp only [List.map_cons, List.map_nil]
    rw [fluxFinal_get?_extname, sigmaFinal_get?_extname]
    rfl

theorem claim_C9_witness :
    sampleRun = .ok sampleProducts ∧
    sampleProducts.get? 0 = some sampleProduct0 ∧
    ((true = true →
        sampleProduct0.map (fun hdu => hdu.header.get? "EXTNAME") =
          fullExtnames ∧ ∀ hdu ∈ sampleProduct0, hdu.checksumValid) ∧
      (true = false →
        sampleProduct0.map (fun hdu => hdu.header.get? "EXTNAME") =
          basicExtnames)) :=
  ⟨rfl, rfl,
    claim_C9 sampleExternals sampleImage true sampleProducts 0 sampleProduct0
      rfl rfl⟩

/-- Claim C10: the input_sigma header consists of exactly the five
wavelength-axis cards, EXTNAME and the checksum cards, in that order; the
velocity fields, the HISTORY note and the catalog-derived fields are present
in the input_spectrum header and absent from the input_sigma header. -/
theorem claim_C10 (e : Externals) (im : Image) (d : Bool) (ps : List HDUList)
    (k : ℕ) (p : HDUList) (fluxHdu sigmaHdu : HDU)
    (hrun : (from_2dfdr e im d).1 = .ok ps)
    (hp : ps.get? k = some p)
    (hf : p.get? 0 = some fluxHdu)
    (hs : p.get? 1 = some sigmaHdu) :
    sigmaHdu.header.map Card.key = sigmaKeyList ∧
    ∀ k2 ∈ fluxOnlyKeys,
      (fluxHdu.header.get? k2).isSome = true ∧
      sigmaHdu.header.get? k2 = none := by
  obtain ⟨exts, hdu0b, t1, cn, rows, i, row, eh, sh0, vb, vh, x1, y1, x2, y2,
    flux, variance, hre, hd0e, hghdu, hdel, hccd, hrows, hi, hIm1, hIm2, hTR,
    hEnr, hCopy, hMot, hx1, hy1, hx2, hy2, hAsm⟩ :=
    run_object_spec e im d ps k p hrun hp
  obtain ⟨v1, v2, v3, v4, v5, hv1, hv2, hv3, hv4, hv5, hsh0⟩ :=
    copyWavelengthKeys_ok _ _ hCopy
  subst hsh0
  obtain ⟨hg0p, hg1p⟩ := assembleTail_get01 d _ _ p hAsm
  rw [hf] at hg0p
  injection hg0p with hfe
  subst hfe
  rw [hs] at hg1p
  injection hg1p with hse
  subst hse
  obtain ⟨henrRA, henrDEC, hfib, hname, hpmra, hpmdec, hmag, hdescr, -⟩ :=
    enrichHeader_ok_parts _ _ _ _ hEnr
  constructor
  · rw [sigmaFinal_explicit_header]
    rfl
  · intro k2 hk2
    simp only [fluxOnlyKeys, List.mem_cons, List.not_mem_nil, or_false] at hk2
    rcases hk2 with rfl | rfl | rfl | rfl | rfl | rfl | rfl | rfl | rfl |
      rfl | rfl
    · exact ⟨by rw [fluxFinal_get?_vbary]; rfl,
        by rw [sigmaFinal_explicit_header]; rfl⟩
    · exact ⟨by rw [fluxFinal_get?_vhelio]; rfl,
        by rw [sigmaFinal_explicit_header]; rfl⟩
    · exact ⟨fluxFinal_get?_history _ _ _ _ _ _,
        by rw [sigmaFinal_explicit_header]; rfl⟩
    · refine ⟨?_, by rw [sigmaFinal_explicit_header]; rfl⟩
      rw [fluxFinal_get?_ne _ _ _ _ _ _ _ (by decide) (by decide) (by decide)
        (by decide) (by decide) (by decide) (by decide) (by decide), hfib]
      rfl
    · refine ⟨?_, by rw [sigmaFinal_explicit_header]; rfl⟩
      rw [fluxFinal_get?_ne _ _ _ _ _ _ _ (by decide) (by decide) (by decide)
        (by decide) (by decide) (by decide) (by decide) (by decide), hname]
      rfl
    · refine ⟨?_, by rw [sigmaFinal_explicit_header]; rfl⟩
      rw [fluxFinal_get?_ne _ _ _ _ _ _ _ (by decide) (by decide) (by decide)
        (by decide) (by decide) (by decide) (by decide) (by decide), henrRA]
      rfl
    · refine ⟨?_, by rw [sigmaFinal_explicit_header]; rfl⟩
      rw [fluxFinal_get?_ne _ _ _ _ _ _ _ (by decide) (by decide) (by decide)
        (by decide) (by decide) (by decide) (by decide) (by decide), henrDEC]
      rfl
    · refine ⟨?_, by rw [sigmaFinal_explicit_header]; rfl⟩
      rw [fluxFinal_get?_ne _ _ _ _ _ _ _ (by decide) (by decide) (by decide)
        (by decide) (by decide) (by decide) (by decide) (by decide), hpmra]
      rfl
    · refine ⟨?_, by rw [sigmaFinal_explicit_header]; rfl⟩
      rw [fluxFinal_get?_ne _ _ _ _ _ _ _ (by decide) (by decide) (by decide)
        (by decide) (by decide) (by decide) (by decide) (by decide), hpmdec]
      rfl
    · refine ⟨?_, by rw [sigmaFinal_explicit_header]; rfl⟩
      rw [fluxFinal_get?_ne _ _ _ _ _ _ _ (by decide) (by decide) (by decide)
        (by decide) (by decide) (by decide) (by decide) (by decide), hmag]
      rfl
    · refine ⟨?_, by rw [sigmaFinal_explicit_header]; rfl⟩
      rw [fluxFinal_get?_ne _ _ _ _ _ _ _ (by decide) (by decide) (by decide)
        (by decide) (by decide) (by decide) (by decide) (by decide), hdescr]
      rfl

theorem claim_C10_witness :
    sampleRun = .ok sampleProducts ∧
    sampleProducts.get? 0 = some sampleProduct0 ∧
    sampleProduct0.get? 0 = some sampleFlux0 ∧
    sampleProduct0.get? 1 = some sampleSigma0 ∧
    (sampleSigma0.header.map Card.key = sigmaKeyList ∧
      ∀ k2 ∈ fluxOnlyKeys,
        (sampleFlux0.header.get? k2).isSome = true ∧
        sampleSigma0.header.get? k2 = none) :=
  ⟨rfl, rfl, rfl, rfl,
    claim_C10 sampleExternals sampleImage true sampleProducts 0 sampleProduct0
      sampleFlux0 sampleSigma0 rfl rfl rfl rfl⟩

end Galah
